import Mathlib

/-!
Shallow embedding of the update-routing core of a Telegram bot library:
the command / prefix matchers (`telegram/ext/commandhandler.py`) and the
JSON-backed in-memory persistence store (`telegram/ext/dictpersistence.py`).

Python values stored in the persistence collections are modelled by
`JsonValue`.  Numeric JSON literals are modelled as integers; floating
point payloads are outside the scope of this model (no verified claim
involves them).  Strings are Unicode as in Python; `lower()` is modelled
by `pyLower`, the full per-character Unicode lowering of CPython
`str.lower` including the capital-sigma context rule, with its tables
enumerated from the interpreter.
-/

/-- JSON values as produced by `json.loads` / consumed by `json.dumps`.
Objects are insertion-ordered association lists, mirroring Python dicts. -/
inductive JsonValue where
  | null : JsonValue
  | bool : Bool → JsonValue
  | int : Int → JsonValue
  | str : String → JsonValue
  | arr : List JsonValue → JsonValue
  | obj : List (String × JsonValue) → JsonValue

/-- Lookup in an insertion-ordered dict with string keys (Python `d.get(k)`). -/
def lookupStr (l : List (String × α)) (k : String) : Option α :=
  match l with
  | [] => none
  | (k₀, v₀) :: rest => if k₀ = k then some v₀ else lookupStr rest k

/-- Python dict assignment `d[k] = v`: replace in place if the key exists,
else append at the end (dicts preserve insertion order). -/
def upsertStr (l : List (String × α)) (k : String) (v : α) : List (String × α) :=
  match l with
  | [] => [(k, v)]
  | (k₀, v₀) :: rest => if k₀ = k then (k₀, v) :: rest else (k₀, v₀) :: upsertStr rest k v

/-- Lookup keyed by `Int` (Python `d.get(user_id)` for user/chat data). -/
def lookupInt (l : List (Int × α)) (k : Int) : Option α :=
  match l with
  | [] => none
  | (k₀, v₀) :: rest => if k₀ = k then some v₀ else lookupInt rest k

/-- Python dict assignment for integer keys. -/
def upsertInt (l : List (Int × α)) (k : Int) (v : α) : List (Int × α) :=
  match l with
  | [] => [(k, v)]
  | (k₀, v₀) :: rest => if k₀ = k then (k₀, v) :: rest else (k₀, v₀) :: upsertInt rest k v

mutual

/-- Python `==` on JSON-shaped values: `None == None`, numbers compare by
value with `bool` conflated with `int` (in Python `True == 1`), lists
compare pointwise, dicts compare unordered by key lookup. -/
def pyEq : JsonValue → JsonValue → Bool
  | .null, .null => true
  | .bool a, .bool b => a = b
  | .bool a, .int b => (if a then (1 : Int) else 0) = b
  | .int a, .bool b => a = (if b then (1 : Int) else 0)
  | .int a, .int b => a = b
  | .str a, .str b => a = b
  | .arr a, .arr b => pyEqList a b
  | .obj a, .obj b => a.length = b.length && pyEqObjSub a b
  | _, _ => false

/-- Pointwise Python `==` on lists. -/
def pyEqList : List JsonValue → List JsonValue → Bool
  | [], [] => true
  | a :: as', b :: bs' => pyEq a b && pyEqList as' bs'
  | _, _ => false

/-- One-sided dict inclusion used by `pyEq` on objects: every key of the
first dict is present in the second with a `==`-equal value. -/
def pyEqObjSub : List (String × JsonValue) → List (String × JsonValue) → Bool
  | [], _ => true
  | (k, v) :: rest, b =>
    (match lookupStr b k with
     | some w => pyEq v w
     | none => false) && pyEqObjSub rest b

end

/-- Python `==` on string-keyed dicts (used for `bot_data` and the inner
per-user / per-chat dicts). -/
def pyDictEq (a b : List (String × JsonValue)) : Bool :=
  a.length = b.length && pyEqObjSub a b

/-- Hex digit for `\uXXXX` escapes, lower case as emitted by Python `json`. -/
def hexDigitChar (n : Nat) : Char :=
  if n < 10 then Char.ofNat (48 + n) else Char.ofNat (87 + n)

/-- Escape one character the way Python `json.dumps` (default
`ensure_ascii=True`) does inside a string literal. -/
def escChar (c : Char) : List Char :=
  if c = '"' then ['\\', '"']
  else if c = '\\' then ['\\', '\\']
  else if c = '\n' then ['\\', 'n']
  else if c = '\t' then ['\\', 't']
  else if c = '\r' then ['\\', 'r']
  else if c = '\x08' then ['\\', 'b']
  else if c = '\x0c' then ['\\', 'f']
  else if c.toNat < 0x20 || c.toNat ≥ 0x7f then
    ['\\', 'u', hexDigitChar (c.toNat / 4096 % 16), hexDigitChar (c.toNat / 256 % 16),
     hexDigitChar (c.toNat / 16 % 16), hexDigitChar (c.toNat % 16)]
  else [c]

/-- Characters of a JSON string literal, quotes included. -/
def escStrChars (s : String) : List Char :=
  '"' :: (s.data.flatMap escChar) ++ ['"']

/-- Decimal digits of a natural number, most significant first (Python
prints integers in plain decimal).  Fuel-structural so that concrete
serializations reduce definitionally; any fuel above `n` suffices. -/
def natDecCharsCore : Nat → Nat → List Char
  | 0, _ => []
  | fuel + 1, n =>
    if n < 10 then [Nat.digitChar n]
    else natDecCharsCore fuel (n / 10) ++ [Nat.digitChar (n % 10)]

/-- Decimal digits of a natural number, most significant first. -/
def natDecChars (n : Nat) : List Char :=
  natDecCharsCore (n + 1) n

/-- Decimal rendering of an integer as Python prints it. -/
def intDecChars (n : Int) : List Char :=
  if n < 0 then '-' :: natDecChars n.natAbs else natDecChars n.natAbs

mutual

/-- Characters emitted by `json.dumps` (default separators `", "` and
`": "`, `ensure_ascii=True`) for a value. -/
def dumpChars : JsonValue → List Char
  | .null => "null".data
  | .bool true => "true".data
  | .bool false => "false".data
  | .int n => intDecChars n
  | .str s => escStrChars s
  | .arr [] => ['[', ']']
  | .arr (x :: xs) => '[' :: (dumpChars x ++ dumpArrTail xs) ++ [']']
  | .obj [] => ['{', '}']
  | .obj ((k, v) :: kvs) =>
    '{' :: (escStrChars k ++ ':' :: ' ' :: dumpChars v ++ dumpObjTail kvs) ++ ['}']

/-- Remaining array items, each preceded by `", "`. -/
def dumpArrTail : List JsonValue → List Char
  | [] => []
  | y :: ys => ',' :: ' ' :: dumpChars y ++ dumpArrTail ys

/-- Remaining object items, each preceded by `", "`. -/
def dumpObjTail : List (String × JsonValue) → List Char
  | [] => []
  | (k, v) :: kvs => ',' :: ' ' :: (escStrChars k ++ ':' :: ' ' :: dumpChars v) ++ dumpObjTail kvs

end

/-- Python `json.dumps` with default options, as a string. -/
def pyDumps (v : JsonValue) : String :=
  (dumpChars v).asString

/-- JSON whitespace accepted between tokens by `json.loads`. -/
def isJsonWs (c : Char) : Bool :=
  c = ' ' || c = '\t' || c = '\n' || c = '\r'

/-- Skip insignificant whitespace. -/
def skipWs (cs : List Char) : List Char :=
  cs.dropWhile isJsonWs

/-- Value of a hexadecimal digit. -/
def hexVal (c : Char) : Option Nat :=
  if '0' ≤ c ∧ c ≤ '9' then some (c.toNat - 48)
  else if 'a' ≤ c ∧ c ≤ 'f' then some (c.toNat - 87)
  else if 'A' ≤ c ∧ c ≤ 'F' then some (c.toNat - 55)
  else none

/-- Single-character escapes accepted inside JSON string literals. -/
def unescChar (c : Char) : Option Char :=
  if c = '"' then some '"'
  else if c = '\\' then some '\\'
  else if c = '/' then some '/'
  else if c = 'b' then some '\x08'
  else if c = 'f' then some '\x0c'
  else if c = 'n' then some '\n'
  else if c = 'r' then some '\r'
  else if c = 't' then some '\t'
  else none

mutual

/-- Parse the body of a JSON string literal (opening quote already
consumed); returns the decoded characters and the input after the closing
quote.  Raw control characters are rejected as in strict-mode `json.loads`. -/
def parseStringBody : List Char → Option (List Char × List Char)
  | [] => none
  | c :: rest =>
    if c = '"' then some ([], rest)
    else if c = '\\' then parseEscapeSeq rest
    else if c.toNat < 0x20 then none
    else (parseStringBody rest).map fun p => (c :: p.1, p.2)

/-- Parse what follows a backslash inside a string literal: a `\uXXXX`
escape or a single-character escape, then the rest of the string body. -/
def parseEscapeSeq : List Char → Option (List Char × List Char)
  | 'u' :: h₁ :: h₂ :: h₃ :: h₄ :: rest₂ =>
    match hexVal h₁, hexVal h₂, hexVal h₃, hexVal h₄ with
    | some a, some b, some c', some d =>
      (parseStringBody rest₂).map fun p =>
        (Char.ofNat (a * 4096 + b * 256 + c' * 16 + d) :: p.1, p.2)
    | _, _, _, _ => none
  | e :: rest₂ =>
    match unescChar e with
    | some u => (parseStringBody rest₂).map fun p => (u :: p.1, p.2)
    | none => none
  | [] => none

end

/-- Consume a run of decimal digits, accumulating their value. -/
def parseDigits : List Char → Nat → Nat × List Char
  | [], acc => (acc, [])
  | c :: rest, acc =>
    if c.isDigit then parseDigits rest (acc * 10 + (c.toNat - 48)) else (acc, c :: rest)

/-- A numeric literal continues as a float (unmodelled) when a fraction or
exponent marker follows the integer digits. -/
def floatFollows : List Char → Bool
  | [] => false
  | c :: _ => c = '.' || c = 'e' || c = 'E'

/-- Rebuild a Python dict from parsed key/value pairs: later duplicate keys
overwrite earlier ones in place. -/
def objFromPairs (pairs : List (String × JsonValue)) : List (String × JsonValue) :=
  pairs.foldl (fun d kv => upsertStr d kv.1 kv.2) []

/-- Parse the tail of the `null` literal (after its leading `n`). -/
def parseNullLit : List Char → Option (JsonValue × List Char)
  | 'u' :: 'l' :: 'l' :: rest => some (.null, rest)
  | _ => none

/-- Parse the tail of the `true` literal (after its leading `t`). -/
def parseTrueLit : List Char → Option (JsonValue × List Char)
  | 'r' :: 'u' :: 'e' :: rest => some (.bool true, rest)
  | _ => none

/-- Parse the tail of the `false` literal (after its leading `f`). -/
def parseFalseLit : List Char → Option (JsonValue × List Char)
  | 'a' :: 'l' :: 's' :: 'e' :: rest => some (.bool false, rest)
  | _ => none

/-- Parse a negative numeric literal (after its leading minus sign). -/
def parseNegNumber : List Char → Option (JsonValue × List Char)
  | [] => none
  | d :: cs₂ =>
    if d.isDigit then
      match parseDigits cs₂ (d.toNat - 48) with
      | (n, rest) => if floatFollows rest then none else some (.int (-(n : Int)), rest)
    else none

mutual

/-- Parse one JSON value at the head of the input (leading whitespace
already skipped).  `fuel` bounds the nesting/positional recursion; callers
supply more fuel than the value needs.  Integer literals only: a fraction
or exponent marker makes the parse fail (floats are outside the model). -/
def parseValueCore : Nat → List Char → Option (JsonValue × List Char)
  | 0, _ => none
  | _ + 1, [] => none
  | fuel + 1, c :: cs =>
    if c = 'n' then parseNullLit cs
    else if c = 't' then parseTrueLit cs
    else if c = 'f' then parseFalseLit cs
    else if c = '"' then
      (parseStringBody cs).map fun (s, r) => (.str s.asString, r)
    else if c = '[' then
      match skipWs cs with
      | ']' :: rest => some (.arr [], rest)
      | cs₂ => (parseArrItems fuel cs₂).map fun (l, r) => (.arr l, r)
    else if c = '{' then
      match skipWs cs with
      | '}' :: rest => some (.obj [], rest)
      | cs₂ => (parseObjItems fuel cs₂).map fun (l, r) => (.obj (objFromPairs l), r)
    else if c = '-' then parseNegNumber cs
    else if c.isDigit then
      match parseDigits cs (c.toNat - 48) with
      | (n, rest) => if floatFollows rest then none else some (.int (n : Int), rest)
    else none

/-- Parse the items of a non-empty array (after `[` and leading
whitespace), through the closing `]`. -/
def parseArrItems : Nat → List Char → Option (List JsonValue × List Char)
  | 0, _ => none
  | fuel + 1, cs =>
    match parseValueCore fuel (skipWs cs) with
    | none => none
    | some (v, rest) =>
      match skipWs rest with
      | ',' :: rest₂ => (parseArrItems fuel rest₂).map fun (l, r) => (v :: l, r)
      | ']' :: rest₂ => some ([v], rest₂)
      | _ => none

/-- Parse the members of a non-empty object (after `{` and leading
whitespace), through the closing `}`. -/
def parseObjItems : Nat → List Char → Option (List (String × JsonValue) × List Char)
  | 0, _ => none
  | fuel + 1, cs =>
    match skipWs cs with
    | '"' :: cs₂ =>
      match parseStringBody cs₂ with
      | none => none
      | some (k, rest) =>
        match skipWs rest with
        | ':' :: rest₂ =>
          match parseValueCore fuel (skipWs rest₂) with
          | none => none
          | some (v, rest₃) =>
            match skipWs rest₃ with
            | ',' :: rest₄ => (parseObjItems fuel rest₄).map fun (l, r) => ((k.asString, v) :: l, r)
            | '}' :: rest₄ => some ([(k.asString, v)], rest₄)
            | _ => none
        | _ => none
    | _ => none

end

/-- Parse one value, skipping leading whitespace first. -/
def parseValue (fuel : Nat) (cs : List Char) : Option (JsonValue × List Char) :=
  parseValueCore fuel (skipWs cs)

/-- Python `json.loads`: the whole input must be one value plus optional
trailing whitespace; `none` models the `ValueError` raised on malformed
input. -/
def pyLoads (s : String) : Option JsonValue :=
  match parseValue (s.length + 2) s.data with
  | some (v, rest) => if skipWs rest = [] then some v else none
  | none => none

/-- Code-point ranges of the characters matched by `\\d` in a Python `re`
str pattern — every Unicode decimal digit — enumerated by matching each
code point on CPython 3.11 (Unicode 14.0.0). -/
def ndDigitRanges : List (Nat × Nat) := [
  (0x30, 0x39), (0x660, 0x669), (0x6f0, 0x6f9), (0x7c0, 0x7c9), (0x966, 0x96f), (0x9e6, 0x9ef),
  (0xa66, 0xa6f), (0xae6, 0xaef), (0xb66, 0xb6f), (0xbe6, 0xbef), (0xc66, 0xc6f), (0xce6, 0xcef),
  (0xd66, 0xd6f), (0xde6, 0xdef), (0xe50, 0xe59), (0xed0, 0xed9), (0xf20, 0xf29), (0x1040, 0x1049),
  (0x1090, 0x1099), (0x17e0, 0x17e9), (0x1810, 0x1819), (0x1946, 0x194f), (0x19d0, 0x19d9), (0x1a80, 0x1a89),
  (0x1a90, 0x1a99), (0x1b50, 0x1b59), (0x1bb0, 0x1bb9), (0x1c40, 0x1c49), (0x1c50, 0x1c59), (0xa620, 0xa629),
  (0xa8d0, 0xa8d9), (0xa900, 0xa909), (0xa9d0, 0xa9d9), (0xa9f0, 0xa9f9), (0xaa50, 0xaa59), (0xabf0, 0xabf9),
  (0xff10, 0xff19), (0x104a0, 0x104a9), (0x10d30, 0x10d39), (0x11066, 0x1106f), (0x110f0, 0x110f9), (0x11136, 0x1113f),
  (0x111d0, 0x111d9), (0x112f0, 0x112f9), (0x11450, 0x11459), (0x114d0, 0x114d9), (0x11650, 0x11659), (0x116c0, 0x116c9),
  (0x11730, 0x11739), (0x118e0, 0x118e9), (0x11950, 0x11959), (0x11c50, 0x11c59), (0x11d50, 0x11d59), (0x11da0, 0x11da9),
  (0x16a60, 0x16a69), (0x16ac0, 0x16ac9), (0x16b50, 0x16b59), (0x1d7ce, 0x1d7ff), (0x1e140, 0x1e149), (0x1e2f0, 0x1e2f9),
  (0x1e950, 0x1e959), (0x1fbf0, 0x1fbf9)]

/-- Membership of a code point in a range table. -/
def inRanges (rs : List (Nat × Nat)) (n : Nat) : Bool :=
  rs.any fun p => p.1 ≤ n && n ≤ p.2

set_option maxHeartbeats 3200000 in
/-- Non-ASCII code points changed by Python `str.lower`, each with its
lowered code point, enumerated on CPython 3.11 (Unicode 14.0.0).  The
two mappings not in this table are handled where they arise: U+0130
lowers to the two code points U+0069 U+0307 (in `pyCharLower`), and
U+03A3, capital sigma, lowers context-dependently (in `pyLowerAux`).
The only characters below U+00C0 changed by `str.lower` are the ASCII
letters `A`-`Z`, the fast path of `pyCharLower`. -/
def lowerTable : List (Nat × Nat) := [
  (0xc0, 0xe0), (0xc1, 0xe1), (0xc2, 0xe2), (0xc3, 0xe3), (0xc4, 0xe4), (0xc5, 0xe5),
  (0xc6, 0xe6), (0xc7, 0xe7), (0xc8, 0xe8), (0xc9, 0xe9), (0xca, 0xea), (0xcb, 0xeb),
  (0xcc, 0xec), (0xcd, 0xed), (0xce, 0xee), (0xcf, 0xef), (0xd0, 0xf0), (0xd1, 0xf1),
  (0xd2, 0xf2), (0xd3, 0xf3), (0xd4, 0xf4), (0xd5, 0xf5), (0xd6, 0xf6), (0xd8, 0xf8),
  (0xd9, 0xf9), (0xda, 0xfa), (0xdb, 0xfb), (0xdc, 0xfc), (0xdd, 0xfd), (0xde, 0xfe),
  (0x100, 0x101), (0x102, 0x103), (0x104, 0x105), (0x106, 0x107), (0x108, 0x109), (0x10a, 0x10b),
  (0x10c, 0x10d), (0x10e, 0x10f), (0x110, 0x111), (0x112, 0x113), (0x114, 0x115), (0x116, 0x117),
  (0x118, 0x119), (0x11a, 0x11b), (0x11c, 0x11d), (0x11e, 0x11f), (0x120, 0x121), (0x122, 0x123),
  (0x124, 0x125), (0x126, 0x127), (0x128, 0x129), (0x12a, 0x12b), (0x12c, 0x12d), (0x12e, 0x12f),
  (0x132, 0x133), (0x134, 0x135), (0x136, 0x137), (0x139, 0x13a), (0x13b, 0x13c), (0x13d, 0x13e),
  (0x13f, 0x140), (0x141, 0x142), (0x143, 0x144), (0x145, 0x146), (0x147, 0x148), (0x14a, 0x14b),
  (0x14c, 0x14d), (0x14e, 0x14f), (0x150, 0x151), (0x152, 0x153), (0x154, 0x155), (0x156, 0x157),
  (0x158, 0x159), (0x15a, 0x15b), (0x15c, 0x15d), (0x15e, 0x15f), (0x160, 0x161), (0x162, 0x163),
  (0x164, 0x165), (0x166, 0x167), (0x168, 0x169), (0x16a, 0x16b), (0x16c, 0x16d), (0x16e, 0x16f),
  (0x170, 0x171), (0x172, 0x173), (0x174, 0x175), (0x176, 0x177), (0x178, 0xff), (0x179, 0x17a),
  (0x17b, 0x17c), (0x17d, 0x17e), (0x181, 0x253), (0x182, 0x183), (0x184, 0x185), (0x186, 0x254),
  (0x187, 0x188), (0x189, 0x256), (0x18a, 0x257), (0x18b, 0x18c), (0x18e, 0x1dd), (0x18f, 0x259),
  (0x190, 0x25b), (0x191, 0x192), (0x193, 0x260), (0x194, 0x263), (0x196, 0x269), (0x197, 0x268),
  (0x198, 0x199), (0x19c, 0x26f), (0x19d, 0x272), (0x19f, 0x275), (0x1a0, 0x1a1), (0x1a2, 0x1a3),
  (0x1a4, 0x1a5), (0x1a6, 0x280), (0x1a7, 0x1a8), (0x1a9, 0x283), (0x1ac, 0x1ad), (0x1ae, 0x288),
  (0x1af, 0x1b0), (0x1b1, 0x28a), (0x1b2, 0x28b), (0x1b3, 0x1b4), (0x1b5, 0x1b6), (0x1b7, 0x292),
  (0x1b8, 0x1b9), (0x1bc, 0x1bd), (0x1c4, 0x1c6), (0x1c5, 0x1c6), (0x1c7, 0x1c9), (0x1c8, 0x1c9),
  (0x1ca, 0x1cc), (0x1cb, 0x1cc), (0x1cd, 0x1ce), (0x1cf, 0x1d0), (0x1d1, 0x1d2), (0x1d3, 0x1d4),
  (0x1d5, 0x1d6), (0x1d7, 0x1d8), (0x1d9, 0x1da), (0x1db, 0x1dc), (0x1de, 0x1df), (0x1e0, 0x1e1),
  (0x1e2, 0x1e3), (0x1e4, 0x1e5), (0x1e6, 0x1e7), (0x1e8, 0x1e9), (0x1ea, 0x1eb), (0x1ec, 0x1ed),
  (0x1ee, 0x1ef), (0x1f1, 0x1f3), (0x1f2, 0x1f3), (0x1f4, 0x1f5), (0x1f6, 0x195), (0x1f7, 0x1bf),
  (0x1f8, 0x1f9), (0x1fa, 0x1fb), (0x1fc, 0x1fd), (0x1fe, 0x1ff), (0x200, 0x201), (0x202, 0x203),
  (0x204, 0x205), (0x206, 0x207), (0x208, 0x209), (0x20a, 0x20b), (0x20c, 0x20d), (0x20e, 0x20f),
  (0x210, 0x211), (0x212, 0x213), (0x214, 0x215), (0x216, 0x217), (0x218, 0x219), (0x21a, 0x21b),
  (0x21c, 0x21d), (0x21e, 0x21f), (0x220, 0x19e), (0x222, 0x223), (0x224, 0x225), (0x226, 0x227),
  (0x228, 0x229), (0x22a, 0x22b), (0x22c, 0x22d), (0x22e, 0x22f), (0x230, 0x231), (0x232, 0x233),
  (0x23a, 0x2c65), (0x23b, 0x23c), (0x23d, 0x19a), (0x23e, 0x2c66), (0x241, 0x242), (0x243, 0x180),
  (0x244, 0x289), (0x245, 0x28c), (0x246, 0x247), (0x248, 0x249), (0x24a, 0x24b), (0x24c, 0x24d),
  (0x24e, 0x24f), (0x370, 0x371), (0x372, 0x373), (0x376, 0x377), (0x37f, 0x3f3), (0x386, 0x3ac),
  (0x388, 0x3ad), (0x389, 0x3ae), (0x38a, 0x3af), (0x38c, 0x3cc), (0x38e, 0x3cd), (0x38f, 0x3ce),
  (0x391, 0x3b1), (0x392, 0x3b2), (0x393, 0x3b3), (0x394, 0x3b4), (0x395, 0x3b5), (0x396, 0x3b6),
  (0x397, 0x3b7), (0x398, 0x3b8), (0x399, 0x3b9), (0x39a, 0x3ba), (0x39b, 0x3bb), (0x39c, 0x3bc),
  (0x39d, 0x3bd), (0x39e, 0x3be), (0x39f, 0x3bf), (0x3a0, 0x3c0), (0x3a1, 0x3c1), (0x3a4, 0x3c4),
  (0x3a5, 0x3c5), (0x3a6, 0x3c6), (0x3a7, 0x3c7), (0x3a8, 0x3c8), (0x3a9, 0x3c9), (0x3aa, 0x3ca),
  (0x3ab, 0x3cb), (0x3cf, 0x3d7), (0x3d8, 0x3d9), (0x3da, 0x3db), (0x3dc, 0x3dd), (0x3de, 0x3df),
  (0x3e0, 0x3e1), (0x3e2, 0x3e3), (0x3e4, 0x3e5), (0x3e6, 0x3e7), (0x3e8, 0x3e9), (0x3ea, 0x3eb),
  (0x3ec, 0x3ed), (0x3ee, 0x3ef), (0x3f4, 0x3b8), (0x3f7, 0x3f8), (0x3f9, 0x3f2), (0x3fa, 0x3fb),
  (0x3fd, 0x37b), (0x3fe, 0x37c), (0x3ff, 0x37d), (0x400, 0x450), (0x401, 0x451), (0x402, 0x452),
  (0x403, 0x453), (0x404, 0x454), (0x405, 0x455), (0x406, 0x456), (0x407, 0x457), (0x408, 0x458),
  (0x409, 0x459), (0x40a, 0x45a), (0x40b, 0x45b), (0x40c, 0x45c), (0x40d, 0x45d), (0x40e, 0x45e),
  (0x40f, 0x45f), (0x410, 0x430), (0x411, 0x431), (0x412, 0x432), (0x413, 0x433), (0x414, 0x434),
  (0x415, 0x435), (0x416, 0x436), (0x417, 0x437), (0x418, 0x438), (0x419, 0x439), (0x41a, 0x43a),
  (0x41b, 0x43b), (0x41c, 0x43c), (0x41d, 0x43d), (0x41e, 0x43e), (0x41f, 0x43f), (0x420, 0x440),
  (0x421, 0x441), (0x422, 0x442), (0x423, 0x443), (0x424, 0x444), (0x425, 0x445), (0x426, 0x446),
  (0x427, 0x447), (0x428, 0x448), (0x429, 0x449), (0x42a, 0x44a), (0x42b, 0x44b), (0x42c, 0x44c),
  (0x42d, 0x44d), (0x42e, 0x44e), (0x42f, 0x44f), (0x460, 0x461), (0x462, 0x463), (0x464, 0x465),
  (0x466, 0x467), (0x468, 0x469), (0x46a, 0x46b), (0x46c, 0x46d), (0x46e, 0x46f), (0x470, 0x471),
  (0x472, 0x473), (0x474, 0x475), (0x476, 0x477), (0x478, 0x479), (0x47a, 0x47b), (0x47c, 0x47d),
  (0x47e, 0x47f), (0x480, 0x481), (0x48a, 0x48b), (0x48c, 0x48d), (0x48e, 0x48f), (0x490, 0x491),
  (0x492, 0x493), (0x494, 0x495), (0x496, 0x497), (0x498, 0x499), (0x49a, 0x49b), (0x49c, 0x49d),
  (0x49e, 0x49f), (0x4a0, 0x4a1), (0x4a2, 0x4a3), (0x4a4, 0x4a5), (0x4a6, 0x4a7), (0x4a8, 0x4a9),
  (0x4aa, 0x4ab), (0x4ac, 0x4ad), (0x4ae, 0x4af), (0x4b0, 0x4b1), (0x4b2, 0x4b3), (0x4b4, 0x4b5),
  (0x4b6, 0x4b7), (0x4b8, 0x4b9), (0x4ba, 0x4bb), (0x4bc, 0x4bd), (0x4be, 0x4bf), (0x4c0, 0x4cf),
  (0x4c1, 0x4c2), (0x4c3, 0x4c4), (0x4c5, 0x4c6), (0x4c7, 0x4c8), (0x4c9, 0x4ca), (0x4cb, 0x4cc),
  (0x4cd, 0x4ce), (0x4d0, 0x4d1), (0x4d2, 0x4d3), (0x4d4, 0x4d5), (0x4d6, 0x4d7), (0x4d8, 0x4d9),
  (0x4da, 0x4db), (0x4dc, 0x4dd), (0x4de, 0x4df), (0x4e0, 0x4e1), (0x4e2, 0x4e3), (0x4e4, 0x4e5),
  (0x4e6, 0x4e7), (0x4e8, 0x4e9), (0x4ea, 0x4eb), (0x4ec, 0x4ed), (0x4ee, 0x4ef), (0x4f0, 0x4f1),
  (0x4f2, 0x4f3), (0x4f4, 0x4f5), (0x4f6, 0x4f7), (0x4f8, 0x4f9), (0x4fa, 0x4fb), (0x4fc, 0x4fd),
  (0x4fe, 0x4ff), (0x500, 0x501), (0x502, 0x503), (0x504, 0x505), (0x506, 0x507), (0x508, 0x509),
  (0x50a, 0x50b), (0x50c, 0x50d), (0x50e, 0x50f), (0x510, 0x511), (0x512, 0x513), (0x514, 0x515),
  (0x516, 0x517), (0x518, 0x519), (0x51a, 0x51b), (0x51c, 0x51d), (0x51e, 0x51f), (0x520, 0x521),
  (0x522, 0x523), (0x524, 0x525), (0x526, 0x527), (0x528, 0x529), (0x52a, 0x52b), (0x52c, 0x52d),
  (0x52e, 0x52f), (0x531, 0x561), (0x532, 0x562), (0x533, 0x563), (0x534, 0x564), (0x535, 0x565),
  (0x536, 0x566), (0x537, 0x567), (0x538, 0x568), (0x539, 0x569), (0x53a, 0x56a), (0x53b, 0x56b),
  (0x53c, 0x56c), (0x53d, 0x56d), (0x53e, 0x56e), (0x53f, 0x56f), (0x540, 0x570), (0x541, 0x571),
  (0x542, 0x572), (0x543, 0x573), (0x544, 0x574), (0x545, 0x575), (0x546, 0x576), (0x547, 0x577),
  (0x548, 0x578), (0x549, 0x579), (0x54a, 0x57a), (0x54b, 0x57b), (0x54c, 0x57c), (0x54d, 0x57d),
  (0x54e, 0x57e), (0x54f, 0x57f), (0x550, 0x580), (0x551, 0x581), (0x552, 0x582), (0x553, 0x583),
  (0x554, 0x584), (0x555, 0x585), (0x556, 0x586), (0x10a0, 0x2d00), (0x10a1, 0x2d01), (0x10a2, 0x2d02),
  (0x10a3, 0x2d03), (0x10a4, 0x2d04), (0x10a5, 0x2d05), (0x10a6, 0x2d06), (0x10a7, 0x2d07), (0x10a8, 0x2d08),
  (0x10a9, 0x2d09), (0x10aa, 0x2d0a), (0x10ab, 0x2d0b), (0x10ac, 0x2d0c), (0x10ad, 0x2d0d), (0x10ae, 0x2d0e),
  (0x10af, 0x2d0f), (0x10b0, 0x2d10), (0x10b1, 0x2d11), (0x10b2, 0x2d12), (0x10b3, 0x2d13), (0x10b4, 0x2d14),
  (0x10b5, 0x2d15), (0x10b6, 0x2d16), (0x10b7, 0x2d17), (0x10b8, 0x2d18), (0x10b9, 0x2d19), (0x10ba, 0x2d1a),
  (0x10bb, 0x2d1b), (0x10bc, 0x2d1c), (0x10bd, 0x2d1d), (0x10be, 0x2d1e), (0x10bf, 0x2d1f), (0x10c0, 0x2d20),
  (0x10c1, 0x2d21), (0x10c2, 0x2d22), (0x10c3, 0x2d23), (0x10c4, 0x2d24), (0x10c5, 0x2d25), (0x10c7, 0x2d27),
  (0x10cd, 0x2d2d), (0x13a0, 0xab70), (0x13a1, 0xab71), (0x13a2, 0xab72), (0x13a3, 0xab73), (0x13a4, 0xab74),
  (0x13a5, 0xab75), (0x13a6, 0xab76), (0x13a7, 0xab77), (0x13a8, 0xab78), (0x13a9, 0xab79), (0x13aa, 0xab7a),
  (0x13ab, 0xab7b), (0x13ac, 0xab7c), (0x13ad, 0xab7d), (0x13ae, 0xab7e), (0x13af, 0xab7f), (0x13b0, 0xab80),
  (0x13b1, 0xab81), (0x13b2, 0xab82), (0x13b3, 0xab83), (0x13b4, 0xab84), (0x13b5, 0xab85), (0x13b6, 0xab86),
  (0x13b7, 0xab87), (0x13b8, 0xab88), (0x13b9, 0xab89), (0x13ba, 0xab8a), (0x13bb, 0xab8b), (0x13bc, 0xab8c),
  (0x13bd, 0xab8d), (0x13be, 0xab8e), (0x13bf, 0xab8f), (0x13c0, 0xab90), (0x13c1, 0xab91), (0x13c2, 0xab92),
  (0x13c3, 0xab93), (0x13c4, 0xab94), (0x13c5, 0xab95), (0x13c6, 0xab96), (0x13c7, 0xab97), (0x13c8, 0xab98),
  (0x13c9, 0xab99), (0x13ca, 0xab9a), (0x13cb, 0xab9b), (0x13cc, 0xab9c), (0x13cd, 0xab9d), (0x13ce, 0xab9e),
  (0x13cf, 0xab9f), (0x13d0, 0xaba0), (0x13d1, 0xaba1), (0x13d2, 0xaba2), (0x13d3, 0xaba3), (0x13d4, 0xaba4),
  (0x13d5, 0xaba5), (0x13d6, 0xaba6), (0x13d7, 0xaba7), (0x13d8, 0xaba8), (0x13d9, 0xaba9), (0x13da, 0xabaa),
  (0x13db, 0xabab), (0x13dc, 0xabac), (0x13dd, 0xabad), (0x13de, 0xabae), (0x13df, 0xabaf), (0x13e0, 0xabb0),
  (0x13e1, 0xabb1), (0x13e2, 0xabb2), (0x13e3, 0xabb3), (0x13e4, 0xabb4), (0x13e5, 0xabb5), (0x13e6, 0xabb6),
  (0x13e7, 0xabb7), (0x13e8, 0xabb8), (0x13e9, 0xabb9), (0x13ea, 0xabba), (0x13eb, 0xabbb), (0x13ec, 0xabbc),
  (0x13ed, 0xabbd), (0x13ee, 0xabbe), (0x13ef, 0xabbf), (0x13f0, 0x13f8), (0x13f1, 0x13f9), (0x13f2, 0x13fa),
  (0x13f3, 0x13fb), (0x13f4, 0x13fc), (0x13f5, 0x13fd), (0x1c90, 0x10d0), (0x1c91, 0x10d1), (0x1c92, 0x10d2),
  (0x1c93, 0x10d3), (0x1c94, 0x10d4), (0x1c95, 0x10d5), (0x1c96, 0x10d6), (0x1c97, 0x10d7), (0x1c98, 0x10d8),
  (0x1c99, 0x10d9), (0x1c9a, 0x10da), (0x1c9b, 0x10db), (0x1c9c, 0x10dc), (0x1c9d, 0x10dd), (0x1c9e, 0x10de),
  (0x1c9f, 0x10df), (0x1ca0, 0x10e0), (0x1ca1, 0x10e1), (0x1ca2, 0x10e2), (0x1ca3, 0x10e3), (0x1ca4, 0x10e4),
  (0x1ca5, 0x10e5), (0x1ca6, 0x10e6), (0x1ca7, 0x10e7), (0x1ca8, 0x10e8), (0x1ca9, 0x10e9), (0x1caa, 0x10ea),
  (0x1cab, 0x10eb), (0x1cac, 0x10ec), (0x1cad, 0x10ed), (0x1cae, 0x10ee), (0x1caf, 0x10ef), (0x1cb0, 0x10f0),
  (0x1cb1, 0x10f1), (0x1cb2, 0x10f2), (0x1cb3, 0x10f3), (0x1cb4, 0x10f4), (0x1cb5, 0x10f5), (0x1cb6, 0x10f6),
  (0x1cb7, 0x10f7), (0x1cb8, 0x10f8), (0x1cb9, 0x10f9), (0x1cba, 0x10fa), (0x1cbd, 0x10fd), (0x1cbe, 0x10fe),
  (0x1cbf, 0x10ff), (0x1e00, 0x1e01), (0x1e02, 0x1e03), (0x1e04, 0x1e05), (0x1e06, 0x1e07), (0x1e08, 0x1e09),
  (0x1e0a, 0x1e0b), (0x1e0c, 0x1e0d), (0x1e0e, 0x1e0f), (0x1e10, 0x1e11), (0x1e12, 0x1e13), (0x1e14, 0x1e15),
  (0x1e16, 0x1e17), (0x1e18, 0x1e19), (0x1e1a, 0x1e1b), (0x1e1c, 0x1e1d), (0x1e1e, 0x1e1f), (0x1e20, 0x1e21),
  (0x1e22, 0x1e23), (0x1e24, 0x1e25), (0x1e26, 0x1e27), (0x1e28, 0x1e29), (0x1e2a, 0x1e2b), (0x1e2c, 0x1e2d),
  (0x1e2e, 0x1e2f), (0x1e30, 0x1e31), (0x1e32, 0x1e33), (0x1e34, 0x1e35), (0x1e36, 0x1e37), (0x1e38, 0x1e39),
  (0x1e3a, 0x1e3b), (0x1e3c, 0x1e3d), (0x1e3e, 0x1e3f), (0x1e40, 0x1e41), (0x1e42, 0x1e43), (0x1e44, 0x1e45),
  (0x1e46, 0x1e47), (0x1e48, 0x1e49), (0x1e4a, 0x1e4b), (0x1e4c, 0x1e4d), (0x1e4e, 0x1e4f), (0x1e50, 0x1e51),
  (0x1e52, 0x1e53), (0x1e54, 0x1e55), (0x1e56, 0x1e57), (0x1e58, 0x1e59), (0x1e5a, 0x1e5b), (0x1e5c, 0x1e5d),
  (0x1e5e, 0x1e5f), (0x1e60, 0x1e61), (0x1e62, 0x1e63), (0x1e64, 0x1e65), (0x1e66, 0x1e67), (0x1e68, 0x1e69),
  (0x1e6a, 0x1e6b), (0x1e6c, 0x1e6d), (0x1e6e, 0x1e6f), (0x1e70, 0x1e71), (0x1e72, 0x1e73), (0x1e74, 0x1e75),
  (0x1e76, 0x1e77), (0x1e78, 0x1e79), (0x1e7a, 0x1e7b), (0x1e7c, 0x1e7d), (0x1e7e, 0x1e7f), (0x1e80, 0x1e81),
  (0x1e82, 0x1e83), (0x1e84, 0x1e85), (0x1e86, 0x1e87), (0x1e88, 0x1e89), (0x1e8a, 0x1e8b), (0x1e8c, 0x1e8d),
  (0x1e8e, 0x1e8f), (0x1e90, 0x1e91), (0x1e92, 0x1e93), (0x1e94, 0x1e95), (0x1e9e, 0xdf), (0x1ea0, 0x1ea1),
  (0x1ea2, 0x1ea3), (0x1ea4, 0x1ea5), (0x1ea6, 0x1ea7), (0x1ea8, 0x1ea9), (0x1eaa, 0x1eab), (0x1eac, 0x1ead),
  (0x1eae, 0x1eaf), (0x1eb0, 0x1eb1), (0x1eb2, 0x1eb3), (0x1eb4, 0x1eb5), (0x1eb6, 0x1eb7), (0x1eb8, 0x1eb9),
  (0x1eba, 0x1ebb), (0x1ebc, 0x1ebd), (0x1ebe, 0x1ebf), (0x1ec0, 0x1ec1), (0x1ec2, 0x1ec3), (0x1ec4, 0x1ec5),
  (0x1ec6, 0x1ec7), (0x1ec8, 0x1ec9), (0x1eca, 0x1ecb), (0x1ecc, 0x1ecd), (0x1ece, 0x1ecf), (0x1ed0, 0x1ed1),
  (0x1ed2, 0x1ed3), (0x1ed4, 0x1ed5), (0x1ed6, 0x1ed7), (0x1ed8, 0x1ed9), (0x1eda, 0x1edb), (0x1edc, 0x1edd),
  (0x1ede, 0x1edf), (0x1ee0, 0x1ee1), (0x1ee2, 0x1ee3), (0x1ee4, 0x1ee5), (0x1ee6, 0x1ee7), (0x1ee8, 0x1ee9),
  (0x1eea, 0x1eeb), (0x1eec, 0x1eed), (0x1eee, 0x1eef), (0x1ef0, 0x1ef1), (0x1ef2, 0x1ef3), (0x1ef4, 0x1ef5),
  (0x1ef6, 0x1ef7), (0x1ef8, 0x1ef9), (0x1efa, 0x1efb), (0x1efc, 0x1efd), (0x1efe, 0x1eff), (0x1f08, 0x1f00),
  (0x1f09, 0x1f01), (0x1f0a, 0x1f02), (0x1f0b, 0x1f03), (0x1f0c, 0x1f04), (0x1f0d, 0x1f05), (0x1f0e, 0x1f06),
  (0x1f0f, 0x1f07), (0x1f18, 0x1f10), (0x1f19, 0x1f11), (0x1f1a, 0x1f12), (0x1f1b, 0x1f13), (0x1f1c, 0x1f14),
  (0x1f1d, 0x1f15), (0x1f28, 0x1f20), (0x1f29, 0x1f21), (0x1f2a, 0x1f22), (0x1f2b, 0x1f23), (0x1f2c, 0x1f24),
  (0x1f2d, 0x1f25), (0x1f2e, 0x1f26), (0x1f2f, 0x1f27), (0x1f38, 0x1f30), (0x1f39, 0x1f31), (0x1f3a, 0x1f32),
  (0x1f3b, 0x1f33), (0x1f3c, 0x1f34), (0x1f3d, 0x1f35), (0x1f3e, 0x1f36), (0x1f3f, 0x1f37), (0x1f48, 0x1f40),
  (0x1f49, 0x1f41), (0x1f4a, 0x1f42), (0x1f4b, 0x1f43), (0x1f4c, 0x1f44), (0x1f4d, 0x1f45), (0x1f59, 0x1f51),
  (0x1f5b, 0x1f53), (0x1f5d, 0x1f55), (0x1f5f, 0x1f57), (0x1f68, 0x1f60), (0x1f69, 0x1f61), (0x1f6a, 0x1f62),
  (0x1f6b, 0x1f63), (0x1f6c, 0x1f64), (0x1f6d, 0x1f65), (0x1f6e, 0x1f66), (0x1f6f, 0x1f67), (0x1f88, 0x1f80),
  (0x1f89, 0x1f81), (0x1f8a, 0x1f82), (0x1f8b, 0x1f83), (0x1f8c, 0x1f84), (0x1f8d, 0x1f85), (0x1f8e, 0x1f86),
  (0x1f8f, 0x1f87), (0x1f98, 0x1f90), (0x1f99, 0x1f91), (0x1f9a, 0x1f92), (0x1f9b, 0x1f93), (0x1f9c, 0x1f94),
  (0x1f9d, 0x1f95), (0x1f9e, 0x1f96), (0x1f9f, 0x1f97), (0x1fa8, 0x1fa0), (0x1fa9, 0x1fa1), (0x1faa, 0x1fa2),
  (0x1fab, 0x1fa3), (0x1fac, 0x1fa4), (0x1fad, 0x1fa5), (0x1fae, 0x1fa6), (0x1faf, 0x1fa7), (0x1fb8, 0x1fb0),
  (0x1fb9, 0x1fb1), (0x1fba, 0x1f70), (0x1fbb, 0x1f71), (0x1fbc, 0x1fb3), (0x1fc8, 0x1f72), (0x1fc9, 0x1f73),
  (0x1fca, 0x1f74), (0x1fcb, 0x1f75), (0x1fcc, 0x1fc3), (0x1fd8, 0x1fd0), (0x1fd9, 0x1fd1), (0x1fda, 0x1f76),
  (0x1fdb, 0x1f77), (0x1fe8, 0x1fe0), (0x1fe9, 0x1fe1), (0x1fea, 0x1f7a), (0x1feb, 0x1f7b), (0x1fec, 0x1fe5),
  (0x1ff8, 0x1f78), (0x1ff9, 0x1f79), (0x1ffa, 0x1f7c), (0x1ffb, 0x1f7d), (0x1ffc, 0x1ff3), (0x2126, 0x3c9),
  (0x212a, 0x6b), (0x212b, 0xe5), (0x2132, 0x214e), (0x2160, 0x2170), (0x2161, 0x2171), (0x2162, 0x2172),
  (0x2163, 0x2173), (0x2164, 0x2174), (0x2165, 0x2175), (0x2166, 0x2176), (0x2167, 0x2177), (0x2168, 0x2178),
  (0x2169, 0x2179), (0x216a, 0x217a), (0x216b, 0x217b), (0x216c, 0x217c), (0x216d, 0x217d), (0x216e, 0x217e),
  (0x216f, 0x217f), (0x2183, 0x2184), (0x24b6, 0x24d0), (0x24b7, 0x24d1), (0x24b8, 0x24d2), (0x24b9, 0x24d3),
  (0x24ba, 0x24d4), (0x24bb, 0x24d5), (0x24bc, 0x24d6), (0x24bd, 0x24d7), (0x24be, 0x24d8), (0x24bf, 0x24d9),
  (0x24c0, 0x24da), (0x24c1, 0x24db), (0x24c2, 0x24dc), (0x24c3, 0x24dd), (0x24c4, 0x24de), (0x24c5, 0x24df),
  (0x24c6, 0x24e0), (0x24c7, 0x24e1), (0x24c8, 0x24e2), (0x24c9, 0x24e3), (0x24ca, 0x24e4), (0x24cb, 0x24e5),
  (0x24cc, 0x24e6), (0x24cd, 0x24e7), (0x24ce, 0x24e8), (0x24cf, 0x24e9), (0x2c00, 0x2c30), (0x2c01, 0x2c31),
  (0x2c02, 0x2c32), (0x2c03, 0x2c33), (0x2c04, 0x2c34), (0x2c05, 0x2c35), (0x2c06, 0x2c36), (0x2c07, 0x2c37),
  (0x2c08, 0x2c38), (0x2c09, 0x2c39), (0x2c0a, 0x2c3a), (0x2c0b, 0x2c3b), (0x2c0c, 0x2c3c), (0x2c0d, 0x2c3d),
  (0x2c0e, 0x2c3e), (0x2c0f, 0x2c3f), (0x2c10, 0x2c40), (0x2c11, 0x2c41), (0x2c12, 0x2c42), (0x2c13, 0x2c43),
  (0x2c14, 0x2c44), (0x2c15, 0x2c45), (0x2c16, 0x2c46), (0x2c17, 0x2c47), (0x2c18, 0x2c48), (0x2c19, 0x2c49),
  (0x2c1a, 0x2c4a), (0x2c1b, 0x2c4b), (0x2c1c, 0x2c4c), (0x2c1d, 0x2c4d), (0x2c1e, 0x2c4e), (0x2c1f, 0x2c4f),
  (0x2c20, 0x2c50), (0x2c21, 0x2c51), (0x2c22, 0x2c52), (0x2c23, 0x2c53), (0x2c24, 0x2c54), (0x2c25, 0x2c55),
  (0x2c26, 0x2c56), (0x2c27, 0x2c57), (0x2c28, 0x2c58), (0x2c29, 0x2c59), (0x2c2a, 0x2c5a), (0x2c2b, 0x2c5b),
  (0x2c2c, 0x2c5c), (0x2c2d, 0x2c5d), (0x2c2e, 0x2c5e), (0x2c2f, 0x2c5f), (0x2c60, 0x2c61), (0x2c62, 0x26b),
  (0x2c63, 0x1d7d), (0x2c64, 0x27d), (0x2c67, 0x2c68), (0x2c69, 0x2c6a), (0x2c6b, 0x2c6c), (0x2c6d, 0x251),
  (0x2c6e, 0x271), (0x2c6f, 0x250), (0x2c70, 0x252), (0x2c72, 0x2c73), (0x2c75, 0x2c76), (0x2c7e, 0x23f),
  (0x2c7f, 0x240), (0x2c80, 0x2c81), (0x2c82, 0x2c83), (0x2c84, 0x2c85), (0x2c86, 0x2c87), (0x2c88, 0x2c89),
  (0x2c8a, 0x2c8b), (0x2c8c, 0x2c8d), (0x2c8e, 0x2c8f), (0x2c90, 0x2c91), (0x2c92, 0x2c93), (0x2c94, 0x2c95),
  (0x2c96, 0x2c97), (0x2c98, 0x2c99), (0x2c9a, 0x2c9b), (0x2c9c, 0x2c9d), (0x2c9e, 0x2c9f), (0x2ca0, 0x2ca1),
  (0x2ca2, 0x2ca3), (0x2ca4, 0x2ca5), (0x2ca6, 0x2ca7), (0x2ca8, 0x2ca9), (0x2caa, 0x2cab), (0x2cac, 0x2cad),
  (0x2cae, 0x2caf), (0x2cb0, 0x2cb1), (0x2cb2, 0x2cb3), (0x2cb4, 0x2cb5), (0x2cb6, 0x2cb7), (0x2cb8, 0x2cb9),
  (0x2cba, 0x2cbb), (0x2cbc, 0x2cbd), (0x2cbe, 0x2cbf), (0x2cc0, 0x2cc1), (0x2cc2, 0x2cc3), (0x2cc4, 0x2cc5),
  (0x2cc6, 0x2cc7), (0x2cc8, 0x2cc9), (0x2cca, 0x2ccb), (0x2ccc, 0x2ccd), (0x2cce, 0x2ccf), (0x2cd0, 0x2cd1),
  (0x2cd2, 0x2cd3), (0x2cd4, 0x2cd5), (0x2cd6, 0x2cd7), (0x2cd8, 0x2cd9), (0x2cda, 0x2cdb), (0x2cdc, 0x2cdd),
  (0x2cde, 0x2cdf), (0x2ce0, 0x2ce1), (0x2ce2, 0x2ce3), (0x2ceb, 0x2cec), (0x2ced, 0x2cee), (0x2cf2, 0x2cf3),
  (0xa640, 0xa641), (0xa642, 0xa643), (0xa644, 0xa645), (0xa646, 0xa647), (0xa648, 0xa649), (0xa64a, 0xa64b),
  (0xa64c, 0xa64d), (0xa64e, 0xa64f), (0xa650, 0xa651), (0xa652, 0xa653), (0xa654, 0xa655), (0xa656, 0xa657),
  (0xa658, 0xa659), (0xa65a, 0xa65b), (0xa65c, 0xa65d), (0xa65e, 0xa65f), (0xa660, 0xa661), (0xa662, 0xa663),
  (0xa664, 0xa665), (0xa666, 0xa667), (0xa668, 0xa669), (0xa66a, 0xa66b), (0xa66c, 0xa66d), (0xa680, 0xa681),
  (0xa682, 0xa683), (0xa684, 0xa685), (0xa686, 0xa687), (0xa688, 0xa689), (0xa68a, 0xa68b), (0xa68c, 0xa68d),
  (0xa68e, 0xa68f), (0xa690, 0xa691), (0xa692, 0xa693), (0xa694, 0xa695), (0xa696, 0xa697), (0xa698, 0xa699),
  (0xa69a, 0xa69b), (0xa722, 0xa723), (0xa724, 0xa725), (0xa726, 0xa727), (0xa728, 0xa729), (0xa72a, 0xa72b),
  (0xa72c, 0xa72d), (0xa72e, 0xa72f), (0xa732, 0xa733), (0xa734, 0xa735), (0xa736, 0xa737), (0xa738, 0xa739),
  (0xa73a, 0xa73b), (0xa73c, 0xa73d), (0xa73e, 0xa73f), (0xa740, 0xa741), (0xa742, 0xa743), (0xa744, 0xa745),
  (0xa746, 0xa747), (0xa748, 0xa749), (0xa74a, 0xa74b), (0xa74c, 0xa74d), (0xa74e, 0xa74f), (0xa750, 0xa751),
  (0xa752, 0xa753), (0xa754, 0xa755), (0xa756, 0xa757), (0xa758, 0xa759), (0xa75a, 0xa75b), (0xa75c, 0xa75d),
  (0xa75e, 0xa75f), (0xa760, 0xa761), (0xa762, 0xa763), (0xa764, 0xa765), (0xa766, 0xa767), (0xa768, 0xa769),
  (0xa76a, 0xa76b), (0xa76c, 0xa76d), (0xa76e, 0xa76f), (0xa779, 0xa77a), (0xa77b, 0xa77c), (0xa77d, 0x1d79),
  (0xa77e, 0xa77f), (0xa780, 0xa781), (0xa782, 0xa783), (0xa784, 0xa785), (0xa786, 0xa787), (0xa78b, 0xa78c),
  (0xa78d, 0x265), (0xa790, 0xa791), (0xa792, 0xa793), (0xa796, 0xa797), (0xa798, 0xa799), (0xa79a, 0xa79b),
  (0xa79c, 0xa79d), (0xa79e, 0xa79f), (0xa7a0, 0xa7a1), (0xa7a2, 0xa7a3), (0xa7a4, 0xa7a5), (0xa7a6, 0xa7a7),
  (0xa7a8, 0xa7a9), (0xa7aa, 0x266), (0xa7ab, 0x25c), (0xa7ac, 0x261), (0xa7ad, 0x26c), (0xa7ae, 0x26a),
  (0xa7b0, 0x29e), (0xa7b1, 0x287), (0xa7b2, 0x29d), (0xa7b3, 0xab53), (0xa7b4, 0xa7b5), (0xa7b6, 0xa7b7),
  (0xa7b8, 0xa7b9), (0xa7ba, 0xa7bb), (0xa7bc, 0xa7bd), (0xa7be, 0xa7bf), (0xa7c0, 0xa7c1), (0xa7c2, 0xa7c3),
  (0xa7c4, 0xa794), (0xa7c5, 0x282), (0xa7c6, 0x1d8e), (0xa7c7, 0xa7c8), (0xa7c9, 0xa7ca), (0xa7d0, 0xa7d1),
  (0xa7d6, 0xa7d7), (0xa7d8, 0xa7d9), (0xa7f5, 0xa7f6), (0xff21, 0xff41), (0xff22, 0xff42), (0xff23, 0xff43),
  (0xff24, 0xff44), (0xff25, 0xff45), (0xff26, 0xff46), (0xff27, 0xff47), (0xff28, 0xff48), (0xff29, 0xff49),
  (0xff2a, 0xff4a), (0xff2b, 0xff4b), (0xff2c, 0xff4c), (0xff2d, 0xff4d), (0xff2e, 0xff4e), (0xff2f, 0xff4f),
  (0xff30, 0xff50), (0xff31, 0xff51), (0xff32, 0xff52), (0xff33, 0xff53), (0xff34, 0xff54), (0xff35, 0xff55),
  (0xff36, 0xff56), (0xff37, 0xff57), (0xff38, 0xff58), (0xff39, 0xff59), (0xff3a, 0xff5a), (0x10400, 0x10428),
  (0x10401, 0x10429), (0x10402, 0x1042a), (0x10403, 0x1042b), (0x10404, 0x1042c), (0x10405, 0x1042d), (0x10406, 0x1042e),
  (0x10407, 0x1042f), (0x10408, 0x10430), (0x10409, 0x10431), (0x1040a, 0x10432), (0x1040b, 0x10433), (0x1040c, 0x10434),
  (0x1040d, 0x10435), (0x1040e, 0x10436), (0x1040f, 0x10437), (0x10410, 0x10438), (0x10411, 0x10439), (0x10412, 0x1043a),
  (0x10413, 0x1043b), (0x10414, 0x1043c), (0x10415, 0x1043d), (0x10416, 0x1043e), (0x10417, 0x1043f), (0x10418, 0x10440),
  (0x10419, 0x10441), (0x1041a, 0x10442), (0x1041b, 0x10443), (0x1041c, 0x10444), (0x1041d, 0x10445), (0x1041e, 0x10446),
  (0x1041f, 0x10447), (0x10420, 0x10448), (0x10421, 0x10449), (0x10422, 0x1044a), (0x10423, 0x1044b), (0x10424, 0x1044c),
  (0x10425, 0x1044d), (0x10426, 0x1044e), (0x10427, 0x1044f), (0x104b0, 0x104d8), (0x104b1, 0x104d9), (0x104b2, 0x104da),
  (0x104b3, 0x104db), (0x104b4, 0x104dc), (0x104b5, 0x104dd), (0x104b6, 0x104de), (0x104b7, 0x104df), (0x104b8, 0x104e0),
  (0x104b9, 0x104e1), (0x104ba, 0x104e2), (0x104bb, 0x104e3), (0x104bc, 0x104e4), (0x104bd, 0x104e5), (0x104be, 0x104e6),
  (0x104bf, 0x104e7), (0x104c0, 0x104e8), (0x104c1, 0x104e9), (0x104c2, 0x104ea), (0x104c3, 0x104eb), (0x104c4, 0x104ec),
  (0x104c5, 0x104ed), (0x104c6, 0x104ee), (0x104c7, 0x104ef), (0x104c8, 0x104f0), (0x104c9, 0x104f1), (0x104ca, 0x104f2),
  (0x104cb, 0x104f3), (0x104cc, 0x104f4), (0x104cd, 0x104f5), (0x104ce, 0x104f6), (0x104cf, 0x104f7), (0x104d0, 0x104f8),
  (0x104d1, 0x104f9), (0x104d2, 0x104fa), (0x104d3, 0x104fb), (0x10570, 0x10597), (0x10571, 0x10598), (0x10572, 0x10599),
  (0x10573, 0x1059a), (0x10574, 0x1059b), (0x10575, 0x1059c), (0x10576, 0x1059d), (0x10577, 0x1059e), (0x10578, 0x1059f),
  (0x10579, 0x105a0), (0x1057a, 0x105a1), (0x1057c, 0x105a3), (0x1057d, 0x105a4), (0x1057e, 0x105a5), (0x1057f, 0x105a6),
  (0x10580, 0x105a7), (0x10581, 0x105a8), (0x10582, 0x105a9), (0x10583, 0x105aa), (0x10584, 0x105ab), (0x10585, 0x105ac),
  (0x10586, 0x105ad), (0x10587, 0x105ae), (0x10588, 0x105af), (0x10589, 0x105b0), (0x1058a, 0x105b1), (0x1058c, 0x105b3),
  (0x1058d, 0x105b4), (0x1058e, 0x105b5), (0x1058f, 0x105b6), (0x10590, 0x105b7), (0x10591, 0x105b8), (0x10592, 0x105b9),
  (0x10594, 0x105bb), (0x10595, 0x105bc), (0x10c80, 0x10cc0), (0x10c81, 0x10cc1), (0x10c82, 0x10cc2), (0x10c83, 0x10cc3),
  (0x10c84, 0x10cc4), (0x10c85, 0x10cc5), (0x10c86, 0x10cc6), (0x10c87, 0x10cc7), (0x10c88, 0x10cc8), (0x10c89, 0x10cc9),
  (0x10c8a, 0x10cca), (0x10c8b, 0x10ccb), (0x10c8c, 0x10ccc), (0x10c8d, 0x10ccd), (0x10c8e, 0x10cce), (0x10c8f, 0x10ccf),
  (0x10c90, 0x10cd0), (0x10c91, 0x10cd1), (0x10c92, 0x10cd2), (0x10c93, 0x10cd3), (0x10c94, 0x10cd4), (0x10c95, 0x10cd5),
  (0x10c96, 0x10cd6), (0x10c97, 0x10cd7), (0x10c98, 0x10cd8), (0x10c99, 0x10cd9), (0x10c9a, 0x10cda), (0x10c9b, 0x10cdb),
  (0x10c9c, 0x10cdc), (0x10c9d, 0x10cdd), (0x10c9e, 0x10cde), (0x10c9f, 0x10cdf), (0x10ca0, 0x10ce0), (0x10ca1, 0x10ce1),
  (0x10ca2, 0x10ce2), (0x10ca3, 0x10ce3), (0x10ca4, 0x10ce4), (0x10ca5, 0x10ce5), (0x10ca6, 0x10ce6), (0x10ca7, 0x10ce7),
  (0x10ca8, 0x10ce8), (0x10ca9, 0x10ce9), (0x10caa, 0x10cea), (0x10cab, 0x10ceb), (0x10cac, 0x10cec), (0x10cad, 0x10ced),
  (0x10cae, 0x10cee), (0x10caf, 0x10cef), (0x10cb0, 0x10cf0), (0x10cb1, 0x10cf1), (0x10cb2, 0x10cf2), (0x118a0, 0x118c0),
  (0x118a1, 0x118c1), (0x118a2, 0x118c2), (0x118a3, 0x118c3), (0x118a4, 0x118c4), (0x118a5, 0x118c5), (0x118a6, 0x118c6),
  (0x118a7, 0x118c7), (0x118a8, 0x118c8), (0x118a9, 0x118c9), (0x118aa, 0x118ca), (0x118ab, 0x118cb), (0x118ac, 0x118cc),
  (0x118ad, 0x118cd), (0x118ae, 0x118ce), (0x118af, 0x118cf), (0x118b0, 0x118d0), (0x118b1, 0x118d1), (0x118b2, 0x118d2),
  (0x118b3, 0x118d3), (0x118b4, 0x118d4), (0x118b5, 0x118d5), (0x118b6, 0x118d6), (0x118b7, 0x118d7), (0x118b8, 0x118d8),
  (0x118b9, 0x118d9), (0x118ba, 0x118da), (0x118bb, 0x118db), (0x118bc, 0x118dc), (0x118bd, 0x118dd), (0x118be, 0x118de),
  (0x118bf, 0x118df), (0x16e40, 0x16e60), (0x16e41, 0x16e61), (0x16e42, 0x16e62), (0x16e43, 0x16e63), (0x16e44, 0x16e64),
  (0x16e45, 0x16e65), (0x16e46, 0x16e66), (0x16e47, 0x16e67), (0x16e48, 0x16e68), (0x16e49, 0x16e69), (0x16e4a, 0x16e6a),
  (0x16e4b, 0x16e6b), (0x16e4c, 0x16e6c), (0x16e4d, 0x16e6d), (0x16e4e, 0x16e6e), (0x16e4f, 0x16e6f), (0x16e50, 0x16e70),
  (0x16e51, 0x16e71), (0x16e52, 0x16e72), (0x16e53, 0x16e73), (0x16e54, 0x16e74), (0x16e55, 0x16e75), (0x16e56, 0x16e76),
  (0x16e57, 0x16e77), (0x16e58, 0x16e78), (0x16e59, 0x16e79), (0x16e5a, 0x16e7a), (0x16e5b, 0x16e7b), (0x16e5c, 0x16e7c),
  (0x16e5d, 0x16e7d), (0x16e5e, 0x16e7e), (0x16e5f, 0x16e7f), (0x1e900, 0x1e922), (0x1e901, 0x1e923), (0x1e902, 0x1e924),
  (0x1e903, 0x1e925), (0x1e904, 0x1e926), (0x1e905, 0x1e927), (0x1e906, 0x1e928), (0x1e907, 0x1e929), (0x1e908, 0x1e92a),
  (0x1e909, 0x1e92b), (0x1e90a, 0x1e92c), (0x1e90b, 0x1e92d), (0x1e90c, 0x1e92e), (0x1e90d, 0x1e92f), (0x1e90e, 0x1e930),
  (0x1e90f, 0x1e931), (0x1e910, 0x1e932), (0x1e911, 0x1e933), (0x1e912, 0x1e934), (0x1e913, 0x1e935), (0x1e914, 0x1e936),
  (0x1e915, 0x1e937), (0x1e916, 0x1e938), (0x1e917, 0x1e939), (0x1e918, 0x1e93a), (0x1e919, 0x1e93b), (0x1e91a, 0x1e93c),
  (0x1e91b, 0x1e93d), (0x1e91c, 0x1e93e), (0x1e91d, 0x1e93f), (0x1e91e, 0x1e940), (0x1e91f, 0x1e941), (0x1e920, 0x1e942),
  (0x1e921, 0x1e943)]

/-- First-match lookup in a code-point table. -/
def lowerLookup : List (Nat × Nat) → Nat → Option Nat
  | [], _ => none
  | (k, v) :: rest, n => if k = n then some v else lowerLookup rest n

/-- Python `str.lower` on a single character other than capital sigma
(whose lowering is context-dependent, see `pyLowerAux`). -/
def pyCharLower (c : Char) : List Char :=
  if 65 ≤ c.toNat && c.toNat ≤ 90 then [Char.ofNat (c.toNat + 32)]
  else if c.toNat < 0xc0 then [c]
  else if c.toNat = 0x130 then [Char.ofNat 0x69, Char.ofNat 0x307]
  else match lowerLookup lowerTable c.toNat with
    | some n => [Char.ofNat n]
    | none => [c]

/-- Code-point ranges of the case-ignorable characters, as consulted by
CPython's capital-sigma rule; derived by probing `str.lower` itself on
CPython 3.11: `x` is case-ignorable iff lowering `"AxΣ"` ends in final
sigma and lowering `"xΣ"` does not. -/
def caseIgnorableRanges : List (Nat × Nat) := [
  (0x27, 0x27), (0x2e, 0x2e), (0x3a, 0x3a), (0x5e, 0x5e), (0x60, 0x60), (0xa8, 0xa8),
  (0xad, 0xad), (0xaf, 0xaf), (0xb4, 0xb4), (0xb7, 0xb8), (0x2b0, 0x36f), (0x374, 0x375),
  (0x37a, 0x37a), (0x384, 0x385), (0x387, 0x387), (0x483, 0x489), (0x559, 0x559), (0x55f, 0x55f),
  (0x591, 0x5bd), (0x5bf, 0x5bf), (0x5c1, 0x5c2), (0x5c4, 0x5c5), (0x5c7, 0x5c7), (0x5f4, 0x5f4),
  (0x600, 0x605), (0x610, 0x61a), (0x61c, 0x61c), (0x640, 0x640), (0x64b, 0x65f), (0x670, 0x670),
  (0x6d6, 0x6dd), (0x6df, 0x6e8), (0x6ea, 0x6ed), (0x70f, 0x70f), (0x711, 0x711), (0x730, 0x74a),
  (0x7a6, 0x7b0), (0x7eb, 0x7f5), (0x7fa, 0x7fa), (0x7fd, 0x7fd), (0x816, 0x82d), (0x859, 0x85b),
  (0x888, 0x888), (0x890, 0x891), (0x898, 0x89f), (0x8c9, 0x902), (0x93a, 0x93a), (0x93c, 0x93c),
  (0x941, 0x948), (0x94d, 0x94d), (0x951, 0x957), (0x962, 0x963), (0x971, 0x971), (0x981, 0x981),
  (0x9bc, 0x9bc), (0x9c1, 0x9c4), (0x9cd, 0x9cd), (0x9e2, 0x9e3), (0x9fe, 0x9fe), (0xa01, 0xa02),
  (0xa3c, 0xa3c), (0xa41, 0xa42), (0xa47, 0xa48), (0xa4b, 0xa4d), (0xa51, 0xa51), (0xa70, 0xa71),
  (0xa75, 0xa75), (0xa81, 0xa82), (0xabc, 0xabc), (0xac1, 0xac5), (0xac7, 0xac8), (0xacd, 0xacd),
  (0xae2, 0xae3), (0xafa, 0xaff), (0xb01, 0xb01), (0xb3c, 0xb3c), (0xb3f, 0xb3f), (0xb41, 0xb44),
  (0xb4d, 0xb4d), (0xb55, 0xb56), (0xb62, 0xb63), (0xb82, 0xb82), (0xbc0, 0xbc0), (0xbcd, 0xbcd),
  (0xc00, 0xc00), (0xc04, 0xc04), (0xc3c, 0xc3c), (0xc3e, 0xc40), (0xc46, 0xc48), (0xc4a, 0xc4d),
  (0xc55, 0xc56), (0xc62, 0xc63), (0xc81, 0xc81), (0xcbc, 0xcbc), (0xcbf, 0xcbf), (0xcc6, 0xcc6),
  (0xccc, 0xccd), (0xce2, 0xce3), (0xd00, 0xd01), (0xd3b, 0xd3c), (0xd41, 0xd44), (0xd4d, 0xd4d),
  (0xd62, 0xd63), (0xd81, 0xd81), (0xdca, 0xdca), (0xdd2, 0xdd4), (0xdd6, 0xdd6), (0xe31, 0xe31),
  (0xe34, 0xe3a), (0xe46, 0xe4e), (0xeb1, 0xeb1), (0xeb4, 0xebc), (0xec6, 0xec6), (0xec8, 0xecd),
  (0xf18, 0xf19), (0xf35, 0xf35), (0xf37, 0xf37), (0xf39, 0xf39), (0xf71, 0xf7e), (0xf80, 0xf84),
  (0xf86, 0xf87), (0xf8d, 0xf97), (0xf99, 0xfbc), (0xfc6, 0xfc6), (0x102d, 0x1030), (0x1032, 0x1037),
  (0x1039, 0x103a), (0x103d, 0x103e), (0x1058, 0x1059), (0x105e, 0x1060), (0x1071, 0x1074), (0x1082, 0x1082),
  (0x1085, 0x1086), (0x108d, 0x108d), (0x109d, 0x109d), (0x10fc, 0x10fc), (0x135d, 0x135f), (0x1712, 0x1714),
  (0x1732, 0x1733), (0x1752, 0x1753), (0x1772, 0x1773), (0x17b4, 0x17b5), (0x17b7, 0x17bd), (0x17c6, 0x17c6),
  (0x17c9, 0x17d3), (0x17d7, 0x17d7), (0x17dd, 0x17dd), (0x180b, 0x180f), (0x1843, 0x1843), (0x1885, 0x1886),
  (0x18a9, 0x18a9), (0x1920, 0x1922), (0x1927, 0x1928), (0x1932, 0x1932), (0x1939, 0x193b), (0x1a17, 0x1a18),
  (0x1a1b, 0x1a1b), (0x1a56, 0x1a56), (0x1a58, 0x1a5e), (0x1a60, 0x1a60), (0x1a62, 0x1a62), (0x1a65, 0x1a6c),
  (0x1a73, 0x1a7c), (0x1a7f, 0x1a7f), (0x1aa7, 0x1aa7), (0x1ab0, 0x1ace), (0x1b00, 0x1b03), (0x1b34, 0x1b34),
  (0x1b36, 0x1b3a), (0x1b3c, 0x1b3c), (0x1b42, 0x1b42), (0x1b6b, 0x1b73), (0x1b80, 0x1b81), (0x1ba2, 0x1ba5),
  (0x1ba8, 0x1ba9), (0x1bab, 0x1bad), (0x1be6, 0x1be6), (0x1be8, 0x1be9), (0x1bed, 0x1bed), (0x1bef, 0x1bf1),
  (0x1c2c, 0x1c33), (0x1c36, 0x1c37), (0x1c78, 0x1c7d), (0x1cd0, 0x1cd2), (0x1cd4, 0x1ce0), (0x1ce2, 0x1ce8),
  (0x1ced, 0x1ced), (0x1cf4, 0x1cf4), (0x1cf8, 0x1cf9), (0x1d2c, 0x1d6a), (0x1d78, 0x1d78), (0x1d9b, 0x1dff),
  (0x1fbd, 0x1fbd), (0x1fbf, 0x1fc1), (0x1fcd, 0x1fcf), (0x1fdd, 0x1fdf), (0x1fed, 0x1fef), (0x1ffd, 0x1ffe),
  (0x200b, 0x200f), (0x2018, 0x2019), (0x2024, 0x2024), (0x2027, 0x2027), (0x202a, 0x202e), (0x2060, 0x2064),
  (0x2066, 0x206f), (0x2071, 0x2071), (0x207f, 0x207f), (0x2090, 0x209c), (0x20d0, 0x20f0), (0x2c7c, 0x2c7d),
  (0x2cef, 0x2cf1), (0x2d6f, 0x2d6f), (0x2d7f, 0x2d7f), (0x2de0, 0x2dff), (0x2e2f, 0x2e2f), (0x3005, 0x3005),
  (0x302a, 0x302d), (0x3031, 0x3035), (0x303b, 0x303b), (0x3099, 0x309e), (0x30fc, 0x30fe), (0xa015, 0xa015),
  (0xa4f8, 0xa4fd), (0xa60c, 0xa60c), (0xa66f, 0xa672), (0xa674, 0xa67d), (0xa67f, 0xa67f), (0xa69c, 0xa69f),
  (0xa6f0, 0xa6f1), (0xa700, 0xa721), (0xa770, 0xa770), (0xa788, 0xa78a), (0xa7f2, 0xa7f4), (0xa7f8, 0xa7f9),
  (0xa802, 0xa802), (0xa806, 0xa806), (0xa80b, 0xa80b), (0xa825, 0xa826), (0xa82c, 0xa82c), (0xa8c4, 0xa8c5),
  (0xa8e0, 0xa8f1), (0xa8ff, 0xa8ff), (0xa926, 0xa92d), (0xa947, 0xa951), (0xa980, 0xa982), (0xa9b3, 0xa9b3),
  (0xa9b6, 0xa9b9), (0xa9bc, 0xa9bd), (0xa9cf, 0xa9cf), (0xa9e5, 0xa9e6), (0xaa29, 0xaa2e), (0xaa31, 0xaa32),
  (0xaa35, 0xaa36), (0xaa43, 0xaa43), (0xaa4c, 0xaa4c), (0xaa70, 0xaa70), (0xaa7c, 0xaa7c), (0xaab0, 0xaab0),
  (0xaab2, 0xaab4), (0xaab7, 0xaab8), (0xaabe, 0xaabf), (0xaac1, 0xaac1), (0xaadd, 0xaadd), (0xaaec, 0xaaed),
  (0xaaf3, 0xaaf4), (0xaaf6, 0xaaf6), (0xab5b, 0xab5f), (0xab69, 0xab6b), (0xabe5, 0xabe5), (0xabe8, 0xabe8),
  (0xabed, 0xabed), (0xfb1e, 0xfb1e), (0xfbb2, 0xfbc2), (0xfe00, 0xfe0f), (0xfe13, 0xfe13), (0xfe20, 0xfe2f),
  (0xfe52, 0xfe52), (0xfe55, 0xfe55), (0xfeff, 0xfeff), (0xff07, 0xff07), (0xff0e, 0xff0e), (0xff1a, 0xff1a),
  (0xff3e, 0xff3e), (0xff40, 0xff40), (0xff70, 0xff70), (0xff9e, 0xff9f), (0xffe3, 0xffe3), (0xfff9, 0xfffb),
  (0x101fd, 0x101fd), (0x102e0, 0x102e0), (0x10376, 0x1037a), (0x10780, 0x10785), (0x10787, 0x107b0), (0x107b2, 0x107ba),
  (0x10a01, 0x10a03), (0x10a05, 0x10a06), (0x10a0c, 0x10a0f), (0x10a38, 0x10a3a), (0x10a3f, 0x10a3f), (0x10ae5, 0x10ae6),
  (0x10d24, 0x10d27), (0x10eab, 0x10eac), (0x10f46, 0x10f50), (0x10f82, 0x10f85), (0x11001, 0x11001), (0x11038, 0x11046),
  (0x11070, 0x11070), (0x11073, 0x11074), (0x1107f, 0x11081), (0x110b3, 0x110b6), (0x110b9, 0x110ba), (0x110bd, 0x110bd),
  (0x110c2, 0x110c2), (0x110cd, 0x110cd), (0x11100, 0x11102), (0x11127, 0x1112b), (0x1112d, 0x11134), (0x11173, 0x11173),
  (0x11180, 0x11181), (0x111b6, 0x111be), (0x111c9, 0x111cc), (0x111cf, 0x111cf), (0x1122f, 0x11231), (0x11234, 0x11234),
  (0x11236, 0x11237), (0x1123e, 0x1123e), (0x112df, 0x112df), (0x112e3, 0x112ea), (0x11300, 0x11301), (0x1133b, 0x1133c),
  (0x11340, 0x11340), (0x11366, 0x1136c), (0x11370, 0x11374), (0x11438, 0x1143f), (0x11442, 0x11444), (0x11446, 0x11446),
  (0x1145e, 0x1145e), (0x114b3, 0x114b8), (0x114ba, 0x114ba), (0x114bf, 0x114c0), (0x114c2, 0x114c3), (0x115b2, 0x115b5),
  (0x115bc, 0x115bd), (0x115bf, 0x115c0), (0x115dc, 0x115dd), (0x11633, 0x1163a), (0x1163d, 0x1163d), (0x1163f, 0x11640),
  (0x116ab, 0x116ab), (0x116ad, 0x116ad), (0x116b0, 0x116b5), (0x116b7, 0x116b7), (0x1171d, 0x1171f), (0x11722, 0x11725),
  (0x11727, 0x1172b), (0x1182f, 0x11837), (0x11839, 0x1183a), (0x1193b, 0x1193c), (0x1193e, 0x1193e), (0x11943, 0x11943),
  (0x119d4, 0x119d7), (0x119da, 0x119db), (0x119e0, 0x119e0), (0x11a01, 0x11a0a), (0x11a33, 0x11a38), (0x11a3b, 0x11a3e),
  (0x11a47, 0x11a47), (0x11a51, 0x11a56), (0x11a59, 0x11a5b), (0x11a8a, 0x11a96), (0x11a98, 0x11a99), (0x11c30, 0x11c36),
  (0x11c38, 0x11c3d), (0x11c3f, 0x11c3f), (0x11c92, 0x11ca7), (0x11caa, 0x11cb0), (0x11cb2, 0x11cb3), (0x11cb5, 0x11cb6),
  (0x11d31, 0x11d36), (0x11d3a, 0x11d3a), (0x11d3c, 0x11d3d), (0x11d3f, 0x11d45), (0x11d47, 0x11d47), (0x11d90, 0x11d91),
  (0x11d95, 0x11d95), (0x11d97, 0x11d97), (0x11ef3, 0x11ef4), (0x13430, 0x13438), (0x16af0, 0x16af4), (0x16b30, 0x16b36),
  (0x16b40, 0x16b43), (0x16f4f, 0x16f4f), (0x16f8f, 0x16f9f), (0x16fe0, 0x16fe1), (0x16fe3, 0x16fe4), (0x1aff0, 0x1aff3),
  (0x1aff5, 0x1affb), (0x1affd, 0x1affe), (0x1bc9d, 0x1bc9e), (0x1bca0, 0x1bca3), (0x1cf00, 0x1cf2d), (0x1cf30, 0x1cf46),
  (0x1d167, 0x1d169), (0x1d173, 0x1d182), (0x1d185, 0x1d18b), (0x1d1aa, 0x1d1ad), (0x1d242, 0x1d244), (0x1da00, 0x1da36),
  (0x1da3b, 0x1da6c), (0x1da75, 0x1da75), (0x1da84, 0x1da84), (0x1da9b, 0x1da9f), (0x1daa1, 0x1daaf), (0x1e000, 0x1e006),
  (0x1e008, 0x1e018), (0x1e01b, 0x1e021), (0x1e023, 0x1e024), (0x1e026, 0x1e02a), (0x1e130, 0x1e13d), (0x1e2ae, 0x1e2ae),
  (0x1e2ec, 0x1e2ef), (0x1e8d0, 0x1e8d6), (0x1e944, 0x1e94b), (0x1f3fb, 0x1f3ff), (0xe0001, 0xe0001), (0xe0020, 0xe007f),
  (0xe0100, 0xe01ef)]

/-- Code-point ranges of the cased, non-case-ignorable characters (the
only characters whose casedness the capital-sigma scan ever tests);
derived by probing `str.lower` on CPython 3.11: `x` is in the table iff
lowering `"xΣ"` ends in final sigma. -/
def casedRanges : List (Nat × Nat) := [
  (0x41, 0x5a), (0x61, 0x7a), (0xaa, 0xaa), (0xb5, 0xb5), (0xba, 0xba), (0xc0, 0xd6),
  (0xd8, 0xf6), (0xf8, 0x1ba), (0x1bc, 0x1bf), (0x1c4, 0x293), (0x295, 0x2af), (0x370, 0x373),
  (0x376, 0x377), (0x37b, 0x37d), (0x37f, 0x37f), (0x386, 0x386), (0x388, 0x38a), (0x38c, 0x38c),
  (0x38e, 0x3a1), (0x3a3, 0x3f5), (0x3f7, 0x481), (0x48a, 0x52f), (0x531, 0x556), (0x560, 0x588),
  (0x10a0, 0x10c5), (0x10c7, 0x10c7), (0x10cd, 0x10cd), (0x10d0, 0x10fa), (0x10fd, 0x10ff), (0x13a0, 0x13f5),
  (0x13f8, 0x13fd), (0x1c80, 0x1c88), (0x1c90, 0x1cba), (0x1cbd, 0x1cbf), (0x1d00, 0x1d2b), (0x1d6b, 0x1d77),
  (0x1d79, 0x1d9a), (0x1e00, 0x1f15), (0x1f18, 0x1f1d), (0x1f20, 0x1f45), (0x1f48, 0x1f4d), (0x1f50, 0x1f57),
  (0x1f59, 0x1f59), (0x1f5b, 0x1f5b), (0x1f5d, 0x1f5d), (0x1f5f, 0x1f7d), (0x1f80, 0x1fb4), (0x1fb6, 0x1fbc),
  (0x1fbe, 0x1fbe), (0x1fc2, 0x1fc4), (0x1fc6, 0x1fcc), (0x1fd0, 0x1fd3), (0x1fd6, 0x1fdb), (0x1fe0, 0x1fec),
  (0x1ff2, 0x1ff4), (0x1ff6, 0x1ffc), (0x2102, 0x2102), (0x2107, 0x2107), (0x210a, 0x2113), (0x2115, 0x2115),
  (0x2119, 0x211d), (0x2124, 0x2124), (0x2126, 0x2126), (0x2128, 0x2128), (0x212a, 0x212d), (0x212f, 0x2134),
  (0x2139, 0x2139), (0x213c, 0x213f), (0x2145, 0x2149), (0x214e, 0x214e), (0x2160, 0x217f), (0x2183, 0x2184),
  (0x24b6, 0x24e9), (0x2c00, 0x2c7b), (0x2c7e, 0x2ce4), (0x2ceb, 0x2cee), (0x2cf2, 0x2cf3), (0x2d00, 0x2d25),
  (0x2d27, 0x2d27), (0x2d2d, 0x2d2d), (0xa640, 0xa66d), (0xa680, 0xa69b), (0xa722, 0xa76f), (0xa771, 0xa787),
  (0xa78b, 0xa78e), (0xa790, 0xa7ca), (0xa7d0, 0xa7d1), (0xa7d3, 0xa7d3), (0xa7d5, 0xa7d9), (0xa7f5, 0xa7f6),
  (0xa7fa, 0xa7fa), (0xab30, 0xab5a), (0xab60, 0xab68), (0xab70, 0xabbf), (0xfb00, 0xfb06), (0xfb13, 0xfb17),
  (0xff21, 0xff3a), (0xff41, 0xff5a), (0x10400, 0x1044f), (0x104b0, 0x104d3), (0x104d8, 0x104fb), (0x10570, 0x1057a),
  (0x1057c, 0x1058a), (0x1058c, 0x10592), (0x10594, 0x10595), (0x10597, 0x105a1), (0x105a3, 0x105b1), (0x105b3, 0x105b9),
  (0x105bb, 0x105bc), (0x10c80, 0x10cb2), (0x10cc0, 0x10cf2), (0x118a0, 0x118df), (0x16e40, 0x16e7f), (0x1d400, 0x1d454),
  (0x1d456, 0x1d49c), (0x1d49e, 0x1d49f), (0x1d4a2, 0x1d4a2), (0x1d4a5, 0x1d4a6), (0x1d4a9, 0x1d4ac), (0x1d4ae, 0x1d4b9),
  (0x1d4bb, 0x1d4bb), (0x1d4bd, 0x1d4c3), (0x1d4c5, 0x1d505), (0x1d507, 0x1d50a), (0x1d50d, 0x1d514), (0x1d516, 0x1d51c),
  (0x1d51e, 0x1d539), (0x1d53b, 0x1d53e), (0x1d540, 0x1d544), (0x1d546, 0x1d546), (0x1d54a, 0x1d550), (0x1d552, 0x1d6a5),
  (0x1d6a8, 0x1d6c0), (0x1d6c2, 0x1d6da), (0x1d6dc, 0x1d6fa), (0x1d6fc, 0x1d714), (0x1d716, 0x1d734), (0x1d736, 0x1d74e),
  (0x1d750, 0x1d76e), (0x1d770, 0x1d788), (0x1d78a, 0x1d7a8), (0x1d7aa, 0x1d7c2), (0x1d7c4, 0x1d7cb), (0x1df00, 0x1df09),
  (0x1df0b, 0x1df1e), (0x1e900, 0x1e943), (0x1f130, 0x1f149), (0x1f150, 0x1f169), (0x1f170, 0x1f189)]

/-- CPython `handle_capital_sigma` (Objects/unicodeobject.c): capital
sigma lowers to final sigma `ς` when it is preceded, skipping
case-ignorable characters, by a cased character, and is not followed,
skipping case-ignorable characters, by a cased character; otherwise to
`σ`.  `before` is the reversed prefix of the original string, `after`
its suffix. -/
def sigmaLower (before after : List Char) : Char :=
  let preceded := match before.dropWhile (fun c => inRanges caseIgnorableRanges c.toNat) with
    | [] => false
    | c :: _ => inRanges casedRanges c.toNat
  if preceded then
    match after.dropWhile (fun c => inRanges caseIgnorableRanges c.toNat) with
    | [] => Char.ofNat 0x3c2
    | c :: _ => if inRanges casedRanges c.toNat then Char.ofNat 0x3c3 else Char.ofNat 0x3c2
  else Char.ofNat 0x3c3

/-- One pass of Python `str.lower()`: full per-character lowering with
the capital-sigma context rule; `before` accumulates the reversed prefix
of the original string, against which the sigma rule is decided. -/
def pyLowerAux (before : List Char) : List Char → List Char
  | [] => []
  | c :: rest =>
    (if c.toNat = 0x3a3 then [sigmaLower before rest] else pyCharLower c)
      ++ pyLowerAux (c :: before) rest

/-- Python `str.lower()`. -/
def pyLower (s : String) : String :=
  ⟨pyLowerAux [] s.data⟩

/-- Accumulator pass of `str.split()`: split on runs of whitespace,
discarding empty pieces. -/
def pySplitWsAux : List Char → List Char → List String
  | [], acc => if acc.isEmpty then [] else [⟨acc.reverse⟩]
  | c :: rest, acc =>
    if c.isWhitespace then
      if acc.isEmpty then pySplitWsAux rest [] else ⟨acc.reverse⟩ :: pySplitWsAux rest []
    else pySplitWsAux rest (c :: acc)

/-- Python `str.split()` with no argument. -/
def pySplitWs (s : String) : List String :=
  pySplitWsAux s.data []

/-- Accumulator pass of `str.split('@')`: split on every separator
occurrence, keeping empty pieces. -/
def pySplitAtAux : List Char → List Char → List String
  | [], acc => [⟨acc.reverse⟩]
  | c :: rest, acc =>
    if c = '@' then ⟨acc.reverse⟩ :: pySplitAtAux rest [] else pySplitAtAux rest (c :: acc)

/-- Python `s.split('@')`. -/
def pySplitAt (s : String) : List String :=
  pySplitAtAux s.data []

/-- Python slice `s[a:b]` for non-negative bounds (clamping as in Python). -/
def pySlice (s : String) (a b : Nat) : String :=
  ((s.data.drop a).take (b - a)).asString

/-- Modelled from the spec: a platform-supplied entity annotating a span of
message text; §6 requires `type`, `offset` and `length` (the class itself
is one of the excluded generated data-model classes). -/
structure MessageEntity where
  type : String
  offset : Nat
  length : Nat

/-- Modelled from the spec: the bot identity resolver of §6, providing the
current bot's username. -/
structure TgBot where
  username : String

/-- Modelled from the spec: the message shape consumed by the matchers
(§6): a `text` (empty string models Python `None` — both are falsy and
are only ever truthiness-tested before use), an ordered `entities` list
and a resolvable bot reference (`none` models an unbound message). -/
structure Message where
  text : String := ""
  entities : List MessageEntity := []
  bot : Option TgBot := none

/-- Modelled from the spec: an update carrying at most one message of each
kind; the matchers only handle ordinary and edited messages, never
channel posts. -/
structure Update where
  message : Option Message := none
  editedMessage : Option Message := none
  channelPost : Option Message := none
  editedChannelPost : Option Message := none

/-- Modelled from the spec: `update.effective_message`, the first present
message-like payload of the update. -/
def Update.effectiveMessage (u : Update) : Option Message :=
  match u.message with
  | some m => some m
  | none =>
    match u.editedMessage with
    | some m => some m
    | none =>
      match u.channelPost with
      | some m => some m
      | none => u.editedChannelPost

/-- Modelled from the spec: the three result shapes a filter evaluation
can produce (§6): `False`, `True`, or a mapping of context keys. -/
inductive FilterResult where
  | bool : Bool → FilterResult
  | dict : List (String × JsonValue) → FilterResult

/-- Python truthiness of a filter result: `False` and the empty dict are
falsy. -/
def FilterResult.truthy : FilterResult → Bool
  | .bool b => b
  | .dict d => !d.isEmpty

/-- Modelled from the spec: `Filters.update.messages`, the baseline filter
ANDed into every command handler, accepting only ordinary and edited
messages (never channel posts). -/
def filtersUpdateMessages (u : Update) : FilterResult :=
  .bool (u.message.isSome || u.editedMessage.isSome)

/-- Match outcome of `check_update`: Python `None` (no match), `False`
(matched but suppressed by the filter), or the pair of the argument list
and the filter result. -/
inductive MatchResult where
  | noMatch : MatchResult
  | rejected : MatchResult
  | matched : List String → FilterResult → MatchResult

/-- Command token character accepted by `re.match` against
`^[\da-z_]{1,32}$`: a Unicode decimal digit, an ASCII lowercase letter
or an underscore. -/
def isCommandChar (c : Char) : Bool :=
  inRanges ndDigitRanges c.toNat || (('a' ≤ c) && (c ≤ 'z')) || c = '_'

/-- Python `re.match(r'^[\da-z_]{1,32}$', s)` is a match: 1 to 32 class
characters spanning the whole string, where `$` also matches just before
one trailing newline (Python regex semantics). -/
def pyMatchBotCommand (s : String) : Bool :=
  let cs := s.data
  let core := match cs.getLast? with
    | some c => if c = '\n' then cs.dropLast else cs
    | none => cs
  decide (1 ≤ core.length) && decide (core.length ≤ 32) && core.all isCommandChar

/-- Modelled from the spec: the character class of the claim's literal
validation pattern `^[a-z0-9_]{1,32}$` — an ASCII lowercase letter, an
ASCII digit or an underscore. -/
def claimCommandChar (c : Char) : Bool :=
  (('a' ≤ c) && (c ≤ 'z')) || (('0' ≤ c) && (c ≤ '9')) || c = '_'

/-- Modelled from the spec: the claim's validation pattern
`^[a-z0-9_]{1,32}$` read over the whole token — 1 to 32 characters, each
from `claimCommandChar`. -/
def claimCommandPattern (s : String) : Bool :=
  decide (1 ≤ s.data.length) && decide (s.data.length ≤ 32)
    && s.data.all claimCommandChar

/-- A `command` argument as accepted by the handler constructors: a single
string or a list of strings. -/
inductive StrOrList where
  | str : String → StrOrList
  | list : List String → StrOrList

/-- Underlying tokens of a `command` argument. -/
def StrOrList.tokens : StrOrList → List String
  | .str s => [s]
  | .list l => l

/-- CommandHandler.__init__ normalisation: a single string becomes a
one-element list, and every token is lower-cased. -/
def normalizeCommands : StrOrList → List String
  | .str s => [pyLower s]
  | .list l => l.map pyLower

/-- CommandHandler.__init__: lower-case the supplied commands, then
validate each against `^[\da-z_]{1,32}$`; `ValueError` on the first
failure is modelled by `Except.error` (no partial object escapes). -/
def CommandHandler.make (command : StrOrList) : Except String (List String) :=
  let cmds := normalizeCommands command
  if cmds.all pyMatchBotCommand then .ok cmds
  else .error "Command is not a valid bot command"

/-- CommandHandler.check_update for a handler owning `cmds` whose composed
filter (baseline ANDed with any user filter) evaluates as `filt`.
Mirrors the source: first entity must be a bot-command at offset 0, the
text and bot reference must be present, the command substring (without
the leading slash) is split on `@` with the bot username appended, and
the first two components are checked against the command set and the
bot's username (case-insensitively). -/
def CommandHandler.check_update (cmds : List String) (filt : Update → FilterResult)
    (u : Update) : MatchResult :=
  match u.effectiveMessage with
  | none => .noMatch
  | some m =>
    match m.entities, m.bot with
    | e :: _, some bot =>
      if e.type = "bot_command" ∧ e.offset = 0 ∧ m.text ≠ "" then
        let command := pySlice m.text 1 e.length
        let args := (pySplitWs m.text).drop 1
        let parts := pySplitAt command ++ [bot.username]
        if pyLower (parts.headD "") ∈ cmds ∧ pyLower (parts.getD 1 "") = pyLower bot.username then
          let fr := filt u
          if fr.truthy then .matched args fr else .rejected
        else .noMatch
      else .noMatch
    | _, _ => .noMatch

/-- Mutable state of a PrefixHandler: `_prefix`, `_command` and the derived
trigger list `_commands`. -/
structure PrefixHandlerState where
  prefixes : List String
  command : List String
  triggers : List String

/-- PrefixHandler._build_commands: the cartesian concatenation
`x.lower() + y.lower()` over prefixes (outer loop) and commands (inner). -/
def buildCommands (ps cs : List String) : List String :=
  ps.flatMap fun x => cs.map fun y => pyLower x ++ pyLower y

/-- Recompute the derived trigger list from the current prefix and command
lists (the tail call every setter makes). -/
def PrefixHandlerState.rebuild (h : PrefixHandlerState) : PrefixHandlerState :=
  { h with triggers := buildCommands h.prefixes h.command }

/-- The `prefix` property setter: a single string is lower-cased and
wrapped in a list, a list is stored as-is; then the triggers are rebuilt. -/
def PrefixHandlerState.setPrefixes (h : PrefixHandlerState) : StrOrList → PrefixHandlerState
  | .str s => PrefixHandlerState.rebuild { h with prefixes := [pyLower s] }
  | .list l => PrefixHandlerState.rebuild { h with prefixes := l }

/-- The `command` property setter (overriding the superclass attribute):
a single string is lower-cased and wrapped, a list is stored as-is; then
the triggers are rebuilt.  No charset validation happens here. -/
def PrefixHandlerState.setCommand (h : PrefixHandlerState) : StrOrList → PrefixHandlerState
  | .str s => PrefixHandlerState.rebuild { h with command := [pyLower s] }
  | .list l => PrefixHandlerState.rebuild { h with command := l }

/-- PrefixHandler.__init__: the three lists start empty, the superclass
constructor assigns the placeholder list `['nocommand']` through the
overridden `command` property and validates *that* list, then the real
prefix and command arguments are assigned through the property setters
(which never validate) and the triggers are rebuilt once more. -/
def PrefixHandler.make (ps cs : StrOrList) : Except String PrefixHandlerState :=
  let h₀ : PrefixHandlerState := ⟨[], [], []⟩
  let h₁ := h₀.setCommand (.list ["nocommand"])
  if h₁.command.all pyMatchBotCommand then
    .ok (((h₁.setPrefixes ps).setCommand cs).rebuild)
  else .error "Command is not a valid bot command"

/-- PrefixHandler.check_update: requires a truthy message text, splits it
on whitespace and matches the lower-cased first token against the trigger
list.  `text_list[0]` on a whitespace-only text raises `IndexError`
(the text is truthy but `split()` returns an empty list), modelled as
`Except.error`. -/
def PrefixHandler.check_update (h : PrefixHandlerState)
    (filt : Update → FilterResult) (u : Update) : Except String MatchResult :=
  match u.effectiveMessage with
  | none => .ok .noMatch
  | some m =>
    if m.text ≠ "" then
      match pySplitWs m.text with
      | [] => .error "IndexError: list index out of range"
      | t :: rest =>
        if pyLower t ∈ h.triggers then
          if (filt u).truthy then .ok (.matched rest (filt u)) else .ok .rejected
        else .ok .noMatch
    else .ok .noMatch

/-- Dict keys of the inner per-user / per-chat dicts: strings that parse
as base-10 integers are coerced to integer keys on decoding, other keys
stay strings. -/
inductive PyKey where
  | int : Int → PyKey
  | str : String → PyKey
deriving DecidableEq

/-- Lookup in an inner dict keyed by `PyKey`. -/
def lookupPyKey (l : List (PyKey × JsonValue)) (k : PyKey) : Option JsonValue :=
  match l with
  | [] => none
  | (k₀, v₀) :: rest => if k₀ = k then some v₀ else lookupPyKey rest k

/-- Python dict assignment for `PyKey` keys. -/
def upsertPyKey (l : List (PyKey × JsonValue)) (k : PyKey) (v : JsonValue) :
    List (PyKey × JsonValue) :=
  match l with
  | [] => [(k, v)]
  | (k₀, v₀) :: rest => if k₀ = k then (k₀, v) :: rest else (k₀, v₀) :: upsertPyKey rest k v

/-- Python `==` on the inner per-user / per-chat dicts. -/
def pyInnerDictEq (a b : List (PyKey × JsonValue)) : Bool :=
  a.length = b.length &&
    a.all fun kv =>
      match lookupPyKey b kv.1 with
      | some w => pyEq kv.2 w
      | none => false

/-- Conversation keys: tuples recovered from JSON, i.e. lists of decoded
values (integer tuples in every intended use). -/
abbrev ConvKey := List JsonValue

/-- Lookup in a conversation sub-dict; tuple keys compare by Python `==`. -/
def lookupConvKey (l : List (ConvKey × JsonValue)) (k : ConvKey) : Option JsonValue :=
  match l with
  | [] => none
  | (k₀, v₀) :: rest => if pyEqList k₀ k then some v₀ else lookupConvKey rest k

/-- Python dict assignment for tuple keys. -/
def upsertConvKey (l : List (ConvKey × JsonValue)) (k : ConvKey) (v : JsonValue) :
    List (ConvKey × JsonValue) :=
  match l with
  | [] => [(k, v)]
  | (k₀, v₀) :: rest =>
    if pyEqList k₀ k then (k₀, v) :: rest else (k₀, v₀) :: upsertConvKey rest k v

/-- The callback-data pair: a list of `(id, timestamp, payload-dict)`
triples plus a string-keyed state dict.  Timestamps are kept as the
decoded `JsonValue` (the `float` coercion preserves the numeric value;
non-integral floats are outside the model). -/
abbrev CDC :=
  List (String × JsonValue × List (String × JsonValue)) × List (String × JsonValue)

/-- Python `==` on callback-data pairs (tuples and lists compare
pointwise). -/
def cdcEq (a b : CDC) : Bool :=
  (a.1.length = b.1.length &&
    (a.1.zip b.1).all fun p =>
      p.1.1 = p.2.1 && pyEq p.1.2.1 p.2.2.1 && pyDictEq p.1.2.2 p.2.2.2) &&
  pyDictEq a.2 b.2

/-- State of a `DictPersistence` store: the five collections and their
five JSON caches, all starting out absent (`None`). -/
structure DictPersistence where
  _user_data : Option (List (Int × List (PyKey × JsonValue))) := none
  _chat_data : Option (List (Int × List (PyKey × JsonValue))) := none
  _bot_data : Option (List (String × JsonValue)) := none
  _callback_data : Option CDC := none
  _conversations : Option (List (String × List (ConvKey × JsonValue))) := none
  _user_data_json : Option String := none
  _chat_data_json : Option String := none
  _bot_data_json : Option String := none
  _callback_data_json : Option String := none
  _conversations_json : Option String := none

/-- Python truthiness of a cached JSON field: `None` and the empty string
are both falsy. -/
def jsonCacheHit : Option String → Bool
  | some j => !j.isEmpty
  | none => false

/-- Python `str(k)` for an integer dict key, as used by `json.dumps` when
serializing integer-keyed dicts. -/
def intKeyStr (k : Int) : String :=
  (intDecChars k).asString

/-- JSON view of a `PyKey` when re-serialized as a dict key. -/
def pyKeyStr : PyKey → String
  | .int i => intKeyStr i
  | .str s => s

/-- JSON view of the (optional) user/chat collection: `None` serializes
to `null`, a dict to an object with stringified integer keys. -/
def userChatDataToJson : Option (List (Int × List (PyKey × JsonValue))) → JsonValue
  | none => .null
  | some m =>
    .obj (m.map fun e => (intKeyStr e.1, .obj (e.2.map fun kv => (pyKeyStr kv.1, kv.2))))

/-- JSON view of the (optional) bot-data dict. -/
def botDataToJson : Option (List (String × JsonValue)) → JsonValue
  | none => .null
  | some d => .obj d

/-- JSON view of the (optional) callback-data pair (tuples serialize as
arrays). -/
def cdcToJson : Option CDC → JsonValue
  | none => .null
  | some (lst, st) =>
    .arr [.arr (lst.map fun t => .arr [.str t.1, t.2.1, .obj t.2.2]), .obj st]

/-- DictPersistence._encode_conversations_to_json: every tuple key is
itself `json.dumps`-encoded to a string key, then the whole two-level
dict is serialized. -/
def encodeConversationsToJson (c : List (String × List (ConvKey × JsonValue))) : String :=
  pyDumps (.obj (c.foldl (fun t e =>
    upsertStr t e.1 (.obj (e.2.foldl (fun d kv => upsertStr d (pyDumps (.arr kv.1)) kv.2) []))) []))

/-- Build the inner conversation dict back from decoded key/state pairs;
each string key must itself be valid JSON and decode to a sequence
(`tuple(json.loads(key))`; `tuple()` of a number or `null` raises, and
iteration of strings/dicts does not arise from encoded data and is
modelled as the same failure). -/
def decodeConvInner (pairs : List (String × JsonValue)) (acc : List (ConvKey × JsonValue)) :
    Except String (List (ConvKey × JsonValue)) :=
  match pairs with
  | [] => .ok acc
  | (kstr, st) :: rest =>
    match pyLoads kstr with
    | some (.arr l) => decodeConvInner rest (upsertConvKey acc l st)
    | some _ => .error "TypeError: object is not iterable"
    | none => .error "ValueError: Unable to deserialize key"

/-- Outer loop of `_decode_conversations_from_json`: handler name to inner
dict; a non-dict inner payload raises (`AttributeError` on `.items()`). -/
def decodeConvOuter (entries : List (String × JsonValue))
    (acc : List (String × List (ConvKey × JsonValue))) :
    Except String (List (String × List (ConvKey × JsonValue))) :=
  match entries with
  | [] => .ok acc
  | (h, states) :: rest =>
    match states with
    | .obj sp =>
      match decodeConvInner sp [] with
      | .ok inner => decodeConvOuter rest (upsertStr acc h inner)
      | .error e => .error e
    | _ => .error "AttributeError: object has no attribute items"

/-- DictPersistence._decode_conversations_from_json. -/
def decodeConversationsFromJson (js : String) :
    Except String (List (String × List (ConvKey × JsonValue))) :=
  match pyLoads js with
  | none => .error "ValueError: not valid JSON"
  | some (.obj entries) => decodeConvOuter entries []
  | some _ => .error "AttributeError: object has no attribute items"

/-- Accumulated numeric value of a digit run. -/
def digitsVal (ds : List Char) : Nat :=
  ds.foldl (fun a c => a * 10 + (c.toNat - 48)) 0

/-- Python `int(s)` on a decoded JSON key: optional sign followed by
digits (whitespace/underscore tolerance of `int()` is not needed for
JSON-decoded keys). `none` models the `ValueError`. -/
def pyStrToInt (s : String) : Option Int :=
  match s.data with
  | '-' :: ds => if !ds.isEmpty && ds.all Char.isDigit then some (-(digitsVal ds : Int)) else none
  | '+' :: ds => if !ds.isEmpty && ds.all Char.isDigit then some (digitsVal ds : Int) else none
  | ds => if !ds.isEmpty && ds.all Char.isDigit then some (digitsVal ds : Int) else none

/-- Inner-key coercion of `_decode_user_chat_data_from_json`: try
`int(key)`, keep the string on `ValueError`. -/
def coerceKey (k : String) : PyKey :=
  match pyStrToInt k with
  | some i => .int i
  | none => .str k

/-- Entry loop of `_decode_user_chat_data_from_json`: outer keys must
parse as integers, inner payloads must be dicts, inner keys get a
best-effort integer coercion. -/
def decodeUserChatEntries (entries : List (String × JsonValue))
    (acc : List (Int × List (PyKey × JsonValue))) :
    Except String (List (Int × List (PyKey × JsonValue))) :=
  match entries with
  | [] => .ok acc
  | (uStr, inner) :: rest =>
    match pyStrToInt uStr with
    | none => .error "ValueError: invalid literal for int"
    | some u =>
      match inner with
      | .obj ip =>
        decodeUserChatEntries rest
          (upsertInt acc u (ip.foldl (fun d kv => upsertPyKey d (coerceKey kv.1) kv.2) []))
      | _ => .error "AttributeError: object has no attribute items"

/-- DictPersistence._decode_user_chat_data_from_json. -/
def decodeUserChatDataFromJson (js : String) :
    Except String (List (Int × List (PyKey × JsonValue))) :=
  match pyLoads js with
  | none => .error "ValueError: not valid JSON"
  | some (.obj entries) => decodeUserChatEntries entries []
  | some _ => .error "AttributeError: object has no attribute items"

/-- Shape check of one decoded callback-data triple: the comprehension
unpacks exactly three elements and coerces the second through `float`
(numeric values only in this model), and the subsequent format check
requires a string id and a dict payload. -/
def decodeCdcTriple : JsonValue → Except String (String × JsonValue × List (String × JsonValue))
  | .arr [.str one, two, .obj three] =>
    match two with
    | .int _ => .ok (one, two, three)
    | .bool _ => .ok (one, two, three)
    | _ => .error "callback_data_json is not in the required format"
  | _ => .error "callback_data_json is not in the required format"

/-- Decode the full callback-data payload (used only when the JSON input
is non-empty and not `null`). -/
def decodeCdc (v : JsonValue) : Except String CDC :=
  match v with
  | .arr (d₀ :: d₁ :: _) =>
    match d₀, d₁ with
    | .arr entries, .obj st =>
      match entries.mapM decodeCdcTriple with
      | .ok lst => .ok (lst, st)
      | .error e => .error e
    | _, _ => .error "callback_data_json is not in the required format"
  | _ => .error "callback_data_json is not in the required format"

/-- DictPersistence.__init__: all ten fields start as `None`; each of the
five JSON inputs is decoded only when non-empty, failing construction
with a `TypeError` (modelled by `Except.error`) on malformed input, and
on success stores both the collection and the input string as its cache. -/
def DictPersistence.make (user_data_json chat_data_json bot_data_json
    conversations_json callback_data_json : String) : Except String DictPersistence := do
  let s₀ : DictPersistence := {}
  let s₁ ←
    if user_data_json.isEmpty then pure s₀
    else
      match decodeUserChatDataFromJson user_data_json with
      | .ok d => pure { s₀ with _user_data := some d, _user_data_json := some user_data_json }
      | .error _ => throw "Unable to deserialize user_data_json. Not valid JSON"
  let s₂ ←
    if chat_data_json.isEmpty then pure s₁
    else
      match decodeUserChatDataFromJson chat_data_json with
      | .ok d => pure { s₁ with _chat_data := some d, _chat_data_json := some chat_data_json }
      | .error _ => throw "Unable to deserialize chat_data_json. Not valid JSON"
  let s₃ ←
    if bot_data_json.isEmpty then pure s₂
    else
      match pyLoads bot_data_json with
      | none => throw "Unable to deserialize bot_data_json. Not valid JSON"
      | some (.obj d) => pure { s₂ with _bot_data := some d, _bot_data_json := some bot_data_json }
      | some _ => throw "bot_data_json must be serialized dict"
  let s₄ ←
    if callback_data_json.isEmpty then pure s₃
    else
      match pyLoads callback_data_json with
      | none => throw "Unable to deserialize callback_data_json. Not valid JSON"
      | some .null =>
        pure { s₃ with _callback_data := none, _callback_data_json := some callback_data_json }
      | some v =>
        match decodeCdc v with
        | .ok cdc =>
          pure { s₃ with _callback_data := some cdc
                         _callback_data_json := some callback_data_json }
        | .error e => throw e
  if conversations_json.isEmpty then pure s₄
  else
    match decodeConversationsFromJson conversations_json with
    | .ok c =>
      pure { s₄ with _conversations := some c, _conversations_json := some conversations_json }
    | .error _ => throw "Unable to deserialize conversations_json. Not valid JSON"

/-- The `user_data_json` property: return the cached string when truthy,
else serialize the live collection (without storing the result). -/
def DictPersistence.user_data_json (s : DictPersistence) : String :=
  if jsonCacheHit s._user_data_json then s._user_data_json.getD ""
  else pyDumps (userChatDataToJson s._user_data)

/-- The `chat_data_json` property. -/
def DictPersistence.chat_data_json (s : DictPersistence) : String :=
  if jsonCacheHit s._chat_data_json then s._chat_data_json.getD ""
  else pyDumps (userChatDataToJson s._chat_data)

/-- The `bot_data_json` property. -/
def DictPersistence.bot_data_json (s : DictPersistence) : String :=
  if jsonCacheHit s._bot_data_json then s._bot_data_json.getD ""
  else pyDumps (botDataToJson s._bot_data)

/-- The `callback_data_json` property. -/
def DictPersistence.callback_data_json (s : DictPersistence) : String :=
  if jsonCacheHit s._callback_data_json then s._callback_data_json.getD ""
  else pyDumps (cdcToJson s._callback_data)

/-- The `conversations_json` property: the cache-miss path applies the
conversations encoder to the live collection, which raises
(`AttributeError` on `None.items()`) when the collection was never
materialized. -/
def DictPersistence.conversations_json (s : DictPersistence) : Except String String :=
  if jsonCacheHit s._conversations_json then .ok (s._conversations_json.getD "")
  else
    match s._conversations with
    | none => .error "AttributeError: NoneType object has no attribute items"
    | some c => .ok (encodeConversationsToJson c)

/-- get_conversations: materialize an empty dict on first use, then return
a copy of the requested handler's sub-dict (the copy is the identity in
this pure model). -/
def DictPersistence.get_conversations (s : DictPersistence) (name : String) :
    List (ConvKey × JsonValue) × DictPersistence :=
  match s._conversations with
  | none => ([], { s with _conversations := some [] })
  | some c => ((lookupStr c name).getD [], s)

/-- The conversations dict after the materialization
(`if not self._conversations: self._conversations = {}`, where a falsy
empty dict is replaced by an equal fresh one) and `setdefault(name, {})`
steps of `update_conversation` — both performed even on the
early-return path. -/
def DictPersistence.convAfterSetdefault (s : DictPersistence) (name : String) :
    List (String × List (ConvKey × JsonValue)) :=
  match s._conversations with
  | none =>
    [(name, [])]
  | some c =>
    match lookupStr c name with
    | some _ => c
    | none => c ++ [(name, [])]

/-- The value `update_conversation` compares the new state against:
`self._conversations.setdefault(name, \x7b\x7d).get(key)`, with the absent
read being `None`. -/
def DictPersistence.convCurState (s : DictPersistence) (name : String) (key : ConvKey) :
    JsonValue :=
  match lookupStr (s.convAfterSetdefault name) name with
  | some inner => (lookupConvKey inner key).getD .null
  | none => .null

/-- update_conversation: materialize a falsy conversations store, insert
an empty sub-dict for new handler names via `setdefault`, then compare
the current state for the key against the new one; equal states return
early (leaving any `setdefault` insertion behind without touching the
cache), otherwise the state is written and the conversations cache is
nulled. -/
def DictPersistence.update_conversation (s : DictPersistence) (name : String)
    (key : ConvKey) (new_state : JsonValue) : DictPersistence :=
  if pyEq (s.convCurState name key) new_state then
    { s with _conversations := some (s.convAfterSetdefault name) }
  else
    { s with
      _conversations :=
        some (upsertStr (s.convAfterSetdefault name) name
          (upsertConvKey ((lookupStr (s.convAfterSetdefault name) name).getD []) key new_state))
      _conversations_json := none }

/-- The comparison `update_user_data` makes: the stored entry for
`user_id` (after materialization) compares `==`-equal to the new dict.
Absent entries read as `None` and never equal a dict. -/
def DictPersistence.userEntryEq (s : DictPersistence) (user_id : Int)
    (data : List (PyKey × JsonValue)) : Bool :=
  match lookupInt (s._user_data.getD []) user_id with
  | some cur => pyInnerDictEq cur data
  | none => false

/-- update_user_data: materialize, compare the entry for `user_id` against
the new dict, and on a difference store the dict and null the user-data
cache. -/
def DictPersistence.update_user_data (s : DictPersistence) (user_id : Int)
    (data : List (PyKey × JsonValue)) : DictPersistence :=
  if s.userEntryEq user_id data then { s with _user_data := some (s._user_data.getD []) }
  else
    { s with _user_data := some (upsertInt (s._user_data.getD []) user_id data)
             _user_data_json := none }

/-- The comparison `update_chat_data` makes. -/
def DictPersistence.chatEntryEq (s : DictPersistence) (chat_id : Int)
    (data : List (PyKey × JsonValue)) : Bool :=
  match lookupInt (s._chat_data.getD []) chat_id with
  | some cur => pyInnerDictEq cur data
  | none => false

/-- update_chat_data, identical to the user-data variant. -/
def DictPersistence.update_chat_data (s : DictPersistence) (chat_id : Int)
    (data : List (PyKey × JsonValue)) : DictPersistence :=
  if s.chatEntryEq chat_id data then { s with _chat_data := some (s._chat_data.getD []) }
  else
    { s with _chat_data := some (upsertInt (s._chat_data.getD []) chat_id data)
             _chat_data_json := none }

/-- The comparison `update_bot_data` makes (`None == data` is false for a
dict `data`). -/
def DictPersistence.botEq (s : DictPersistence) (data : List (String × JsonValue)) : Bool :=
  match s._bot_data with
  | some cur => pyDictEq cur data
  | none => false

/-- update_bot_data: compare the whole dict; on a difference store it and
null the bot-data cache. -/
def DictPersistence.update_bot_data (s : DictPersistence)
    (data : List (String × JsonValue)) : DictPersistence :=
  if s.botEq data then s
  else { s with _bot_data := some data, _bot_data_json := none }

/-- The comparison `update_callback_data` makes. -/
def DictPersistence.cdcCurEq (s : DictPersistence) (data : CDC) : Bool :=
  match s._callback_data with
  | some cur => cdcEq cur data
  | none => false

/-- update_callback_data: compare the whole pair; on a difference store
`(data[0], data[1].copy())` and null the callback-data cache. -/
def DictPersistence.update_callback_data (s : DictPersistence) (data : CDC) : DictPersistence :=
  if s.cdcCurEq data then s
  else { s with _callback_data := some (data.1, data.2), _callback_data_json := none }

/-- Message "/start@mybot extra args" with its bot-command entity spanning
"/start@mybot" (length 12) and a bound bot named `mybot`. -/
def startMsg : Message :=
  { text := "/start@mybot extra args"
    entities := [⟨"bot_command", 0, 12⟩]
    bot := some ⟨"mybot"⟩ }

/-- Ordinary update carrying `startMsg`. -/
def startUpd : Update := { message := some startMsg }

/-- Message "/start@otherbot" addressed to a different bot. -/
def otherMsg : Message :=
  { text := "/start@otherbot"
    entities := [⟨"bot_command", 0, 15⟩]
    bot := some ⟨"mybot"⟩ }

/-- Ordinary update carrying `otherMsg`. -/
def otherUpd : Update := { message := some otherMsg }

/-- Update whose message text is non-empty but whitespace-only. -/
def wsUpd : Update := { message := some { text := "   " } }

/-- Ordinary update with text "!test a b" for the prefix-handler example. -/
def bangUpd : Update := { message := some { text := "!test a b" } }

/-- Underlying prefix list produced by the `prefix` setter for either
argument shape. -/
def prefixesOfArg : StrOrList → List String
  | .str s => [pyLower s]
  | .list l => l

/-- Underlying command list produced by the overriding `command` setter. -/
def commandOfArg : StrOrList → List String
  | .str s => [pyLower s]
  | .list l => l

/-- A freshly constructed store (all five JSON inputs empty). -/
def freshStore : DictPersistence := {}

/-- Conversations snapshot used to seed a store with a valid cache. -/
def convSeedJson : String := "\x7b\"g\": \x7b\"[1]\": 1\x7d\x7d"

/-- Store constructed from `convSeedJson` (construction is proved to
succeed; the fallback is never taken). -/
def convSeedStore : DictPersistence :=
  (DictPersistence.make "" "" "" convSeedJson "").toOption.getD {}

/-- The seeded store after `update_conversation('h', (1,), None)`. -/
def convSeedMut : DictPersistence :=
  convSeedStore.update_conversation "h" [.int 1] .null

/-- A fresh store after `update_conversation('hh', (1, 2), None)` — a call
whose new state equals the current lookup. -/
def noopCexStore : DictPersistence :=
  freshStore.update_conversation "hh" [.int 1, .int 2] .null

/-- A fresh store after `update_conversation('h', (1, 2), None)` (the
`None`-state case of the conversation round trip). -/
def convNullRT : DictPersistence :=
  freshStore.update_conversation "h" [.int 1, .int 2] .null

/-- A fresh store after `update_conversation('h', (1, 2), 'STATE')`. -/
def convRoundStore : DictPersistence :=
  freshStore.update_conversation "h" [.int 1, .int 2] (.str "STATE")

/-- Characters that serialize to themselves inside a JSON string literal:
printable ASCII other than the quote and the backslash. -/
def safeChar (c : Char) : Bool :=
  (0x20 ≤ c.toNat && c.toNat < 0x7f) && c ≠ '"' && c ≠ '\\'

/-- Strings all of whose characters are self-serializing. -/
def safeStr (s : String) : Bool :=
  s.data.all safeChar

/-- Keys of a dict literal, pairwise distinct (so re-parsing preserves
the list exactly). -/
def distinctKeys (l : List (String × JsonValue)) : Bool :=
  match l with
  | [] => true
  | (k, _) :: rest => !(rest.any fun kv => kv.1 = k) && distinctKeys rest

mutual

/-- Values in the safe JSON fragment: every string (including dict keys)
is safe and dict keys are pairwise distinct.  Serializing and re-parsing
is proved to be the identity on this fragment. -/
def safeJson : JsonValue → Bool
  | .null => true
  | .bool _ => true
  | .int _ => true
  | .str s => safeStr s
  | .arr l => safeJsonList l
  | .obj l => distinctKeys l && safeJsonObj l

/-- Safety of every array element. -/
def safeJsonList : List JsonValue → Bool
  | [] => true
  | x :: xs => safeJson x && safeJsonList xs

/-- Safety of every dict key and value. -/
def safeJsonObj : List (String × JsonValue) → Bool
  | [] => true
  | (k, v) :: kvs => safeStr k && safeJson v && safeJsonObj kvs

end

/-- Input that may legitimately follow a serialized number: end of input
or a character that neither extends the digit run nor turns it into a
float literal. -/
def numOk : List Char → Bool
  | [] => true
  | c :: _ => !(c.isDigit || c = '.' || c = 'e' || c = 'E')

theorem lookupStr_append_none {α : Type} (l : List (String × α)) (k : String) (v : α)
    (h : lookupStr l k = none) : lookupStr (l ++ [(k, v)]) k = some v := by
  induction l with
  | nil => simp [lookupStr]
  | cons hd tl ih =>
    obtain ⟨k₀, v₀⟩ := hd
    rw [List.cons_append]
    unfold lookupStr at h ⊢
    by_cases hk : k₀ = k
    · rw [if_pos hk] at h
      exact absurd h (by simp)
    · rw [if_neg hk] at h ⊢
      exact ih h

theorem normalizeCommands_eq (c : StrOrList) :
    normalizeCommands c = c.tokens.map pyLower := by
  cases c <;> rfl

/-- Claim C1: against a handler for `start` with no user filter and bot
username `mybot`, check of "/start@mybot extra args" (bot-command entity
at offset 0 covering "/start@mybot") returns the argument list
["extra", "args"] paired with the truthy baseline filter result, and
check of "/start@otherbot" returns the no-match value, which is a
different value than the matched-but-filter-rejected `False`. -/
theorem C1_command_check_examples :
    CommandHandler.check_update ["start"] filtersUpdateMessages startUpd
      = .matched ["extra", "args"] (.bool true) ∧
    (FilterResult.bool true).truthy = true ∧
    CommandHandler.check_update ["start"] filtersUpdateMessages otherUpd = .noMatch ∧
    MatchResult.noMatch ≠ MatchResult.rejected :=
  ⟨rfl, rfl, rfl, fun h => nomatch h⟩

set_option maxRecDepth 100000 in
/-- Counterexample to claim C4: the token `"١"` (U+0661, ARABIC-INDIC
DIGIT ONE) is unchanged by lower-casing and does not match the claim's
pattern `^[a-z0-9_]{1,32}$`, yet construction succeeds: the source
validates with `re.match` against `^[\da-z_]{1,32}$`, whose `\d`
matches every Unicode decimal digit. -/
theorem C4_counterexample :
    pyLower "١" = "١" ∧
    claimCommandPattern "١" = false ∧
    pyMatchBotCommand "١" = true ∧
    CommandHandler.make (.str "١") = .ok ["١"] :=
  ⟨rfl, rfl, rfl, rfl⟩

/-- Claim C4 (amended): construction lower-cases each token with full
`str.lower` and validates the lowered form against `^[\da-z_]{1,32}$`
under Python `re` semantics (`\d` is any Unicode decimal digit, `$` also
matches just before one trailing newline): it succeeds returning exactly
the lower-cased list iff every token's lowered form matches, and fails
with the validation error (no partial object) iff some token's lowered
form does not. -/
theorem C4_amended_construction_validation (c : StrOrList) :
    (CommandHandler.make c = .ok (c.tokens.map pyLower) ↔
      ∀ s ∈ c.tokens, pyMatchBotCommand (pyLower s) = true) ∧
    (CommandHandler.make c = .error "Command is not a valid bot command" ↔
      ∃ s ∈ c.tokens, pyMatchBotCommand (pyLower s) = false) := by
  unfold CommandHandler.make
  rw [normalizeCommands_eq]
  by_cases hall : (c.tokens.map pyLower).all pyMatchBotCommand
  · rw [if_pos hall]
    rw [List.all_map, List.all_eq_true] at hall
    constructor
    · exact ⟨fun _ => hall, fun _ => rfl⟩
    · constructor
      · intro h; exact absurd h (by simp)
      · rintro ⟨s, hs, hfalse⟩
        exact absurd (hall s hs) (by simp [hfalse])
  · rw [if_neg hall]
    rw [List.all_map] at hall
    constructor
    · constructor
      · intro h; exact absurd h (by simp)
      · intro h
        exact absurd (by rw [List.all_eq_true]; exact h) hall
    · constructor
      · intro _
        rw [List.all_eq_true] at hall
        push_neg at hall
        obtain ⟨s, hs, hf⟩ := hall
        exact ⟨s, hs, by simpa using hf⟩
      · intro _; rfl

/-- Claim C7 (code bug): on an update whose message text is non-empty but
whitespace-only, PrefixHandler.check_update raises IndexError
(`text.split()` is empty and `text_list[0]` is evaluated) instead of the
no-match result the claim prescribes; the exact matcher returns no-match
on the same update. -/
theorem C7_prefix_check_raises_on_whitespace :
    PrefixHandler.check_update ⟨["!"], ["test"], ["!test"]⟩ filtersUpdateMessages wsUpd
      = .error "IndexError: list index out of range" ∧
    CommandHandler.check_update ["test"] filtersUpdateMessages wsUpd = .noMatch :=
  ⟨rfl, rfl⟩

/-- Claim C9 (counterexample): `$invalid$` fails the command charset
pattern, yet constructing a PrefixHandler with it as the command raises
no validation error — the supposedly inherited command validation does
not apply to PrefixHandler's command tokens. -/
theorem C9_counterexample :
    pyMatchBotCommand "$invalid$" = false ∧
    PrefixHandler.make (.str "!") (.str "$invalid$")
      = .ok ⟨["!"], ["$invalid$"], ["!$invalid$"]⟩ :=
  ⟨rfl, rfl⟩

/-- Claim C9 (amended): PrefixHandler validation is symmetric in its
absence: the inherited charset validation runs only against the
placeholder `['nocommand']` installed by the superclass constructor, so
construction succeeds for arbitrary prefix and command tokens alike,
storing them unvalidated. -/
theorem C9_amended_no_validation (ps cs : StrOrList) :
    PrefixHandler.make ps cs
      = .ok ⟨prefixesOfArg ps, commandOfArg cs,
             buildCommands (prefixesOfArg ps) (commandOfArg cs)⟩ := by
  cases ps <;> cases cs <;> rfl

/-- Claim C10: on a store constructed with all five JSON inputs empty,
reading `conversations_json` raises (the encoder is applied to the
never-materialized `None` collection), while the other four cache
getters return "null" — the serialization of the absent collection, not
an empty-collection encoding. -/
theorem C10_fresh_store_getters :
    DictPersistence.make "" "" "" "" "" = .ok freshStore ∧
    freshStore.conversations_json
      = .error "AttributeError: NoneType object has no attribute items" ∧
    freshStore.user_data_json = "null" ∧
    freshStore.chat_data_json = "null" ∧
    freshStore.bot_data_json = "null" ∧
    freshStore.callback_data_json = "null" ∧
    "null" ≠ "\x7b\x7d" :=
  ⟨rfl, rfl, rfl, rfl, rfl, rfl, by decide⟩

/-- Claim C2 (counterexample): seed a store from a conversations snapshot
(so its cache is populated), then call
`update_conversation('h', (1,), None)`: the stored conversations gain the
entry `h ↦ \x7b\x7d` via `setdefault`, yet the cache still holds the seed
string, which is no longer the encoding of the live collection — a
mutation without invalidation. -/
theorem C2_counterexample :
    DictPersistence.make "" "" "" convSeedJson "" = .ok convSeedStore ∧
    convSeedStore._conversations = some [("g", [([JsonValue.int 1], JsonValue.int 1)])] ∧
    convSeedMut = convSeedStore.update_conversation "h" [.int 1] .null ∧
    convSeedMut._conversations
      = some [("g", [([JsonValue.int 1], JsonValue.int 1)]), ("h", [])] ∧
    convSeedMut._conversations ≠ convSeedStore._conversations ∧
    convSeedMut._conversations_json = some convSeedJson ∧
    encodeConversationsToJson [("g", [([JsonValue.int 1], JsonValue.int 1)]), ("h", [])]
      ≠ convSeedJson := by
  refine ⟨rfl, rfl, rfl, rfl, ?_, rfl, by decide⟩
  intro hEq
  rw [show convSeedMut._conversations
      = some [("g", [([JsonValue.int 1], JsonValue.int 1)]), ("h", [])] from rfl,
    show convSeedStore._conversations
      = some [("g", [([JsonValue.int 1], JsonValue.int 1)])] from rfl] at hEq
  simpa using congrArg (fun o => (o.getD []).length) hEq

/-- Claim C5 (counterexample): on a fresh store,
`update_conversation('hh', (1, 2), None)` passes the deep-equality test
(the absent read is `None`), yet the call is not a no-op: it writes the
entry `hh ↦ \x7b\x7d` into the conversations store. -/
theorem C5_counterexample :
    pyEq (freshStore.convCurState "hh" [.int 1, .int 2]) .null = true ∧
    noopCexStore = freshStore.update_conversation "hh" [.int 1, .int 2] .null ∧
    noopCexStore._conversations = some [("hh", [])] ∧
    freshStore._conversations = none ∧
    noopCexStore ≠ freshStore := by
  refine ⟨rfl, rfl, rfl, rfl, ?_⟩
  intro hEq
  have h₂ : noopCexStore._conversations = freshStore._conversations :=
    congrArg (fun s => s._conversations) hEq
  rw [show noopCexStore._conversations = some [("hh", [])] from rfl,
    show freshStore._conversations = (none : Option _) from rfl] at h₂
  exact Option.noConfusion h₂

/-- Claim C8 (counterexample): `conversations_json` is a `*_json` cache
property getter, and on a fresh store (cache absent) it does not return a
serialization of the live collection — it raises. -/
theorem C8_counterexample :
    freshStore._conversations_json = none ∧
    freshStore.conversations_json
      = .error "AttributeError: NoneType object has no attribute items" :=
  ⟨rfl, rfl⟩

/-- Claim C3: after construction and after every reassignment of the
`prefix` or `command` property, the derived trigger list equals the
cartesian concatenation `lowercase(prefix) + lowercase(command)` over the
current lists (so reassignments retire stale triggers and activate new
ones), and check matches a text message exactly when its lower-cased
first whitespace token is in the current trigger list; with prefixes
`!`, `#` and commands `test`, `help` the triggers are `!test`, `#test`,
`!help`, `#help` (as a set) and check("!test a b") returns
`(["a", "b"], True)`. -/
theorem C3_prefix_trigger_set :
    (∀ (h : PrefixHandlerState) (a : StrOrList),
      (h.setPrefixes a).triggers
        = buildCommands (h.setPrefixes a).prefixes (h.setPrefixes a).command) ∧
    (∀ (h : PrefixHandlerState) (a : StrOrList),
      (h.setCommand a).triggers
        = buildCommands (h.setCommand a).prefixes (h.setCommand a).command) ∧
    (∀ (ps cs : StrOrList) (h₀ : PrefixHandlerState), PrefixHandler.make ps cs = .ok h₀ →
      h₀.triggers = buildCommands h₀.prefixes h₀.command) ∧
    (∀ (h : PrefixHandlerState) (filt : Update → FilterResult) (u : Update)
        (m : Message) (t : String) (rest : List String),
      u.effectiveMessage = some m → pySplitWs m.text = t :: rest →
      ((PrefixHandler.check_update h filt u = .ok .noMatch ↔ pyLower t ∉ h.triggers) ∧
       (pyLower t ∈ h.triggers →
         PrefixHandler.check_update h filt u
           = .ok (if (filt u).truthy then .matched rest (filt u) else .rejected)))) ∧
    PrefixHandler.make (.list ["!", "#"]) (.list ["test", "help"])
      = .ok ⟨["!", "#"], ["test", "help"], ["!test", "!help", "#test", "#help"]⟩ ∧
    (∀ t, t ∈ ["!test", "!help", "#test", "#help"]
      ↔ t ∈ ["!test", "#test", "!help", "#help"]) ∧
    PrefixHandler.check_update
      ⟨["!", "#"], ["test", "help"], ["!test", "!help", "#test", "#help"]⟩
      filtersUpdateMessages bangUpd = .ok (.matched ["a", "b"] (.bool true)) := by
  refine ⟨?_, ?_, ?_, ?_, rfl, ?_, rfl⟩
  · intro h a; cases a <;> rfl
  · intro h a; cases a <;> rfl
  · intro ps cs h₀ hmk
    cases ps <;> cases cs <;>
      (injection hmk with hX) <;> rw [← hX] <;> rfl
  · intro h filt u m t rest hEff hSplit
    have hTextNe : m.text ≠ "" := by
      intro hT
      rw [hT] at hSplit
      exact absurd hSplit (by simp [pySplitWs, pySplitWsAux])
    unfold PrefixHandler.check_update
    rw [hEff]
    simp only [hTextNe, ne_eq, not_false_eq_true, if_true, hSplit]
    by_cases hmem : pyLower t ∈ h.triggers
    · rw [if_pos hmem]
      constructor
      · constructor
        · intro hres
          cases hfr : (filt u).truthy <;> rw [hfr] at hres <;>
            simp only [if_true, if_false, Bool.false_eq_true] at hres <;>
              exact absurd (Except.ok.inj hres) (by intro hx; exact nomatch hx)
        · intro habs; exact absurd hmem habs
      · intro _
        cases hfr : (filt u).truthy <;> simp [hfr]
    · rw [if_neg hmem]
      exact ⟨⟨fun _ => hmem, fun _ => rfl⟩, fun hmem2 => absurd hmem2 hmem⟩
  · intro t
    constructor <;> intro ht <;> simp at ht <;> rcases ht with h | h | h | h <;> simp [h]

/-- Witness for claim C3: the matching criterion applied to a handler
whose trigger list does not contain `!test` — check of "!test a b"
returns no-match. -/
theorem C3_prefix_trigger_set_witness :
    PrefixHandler.check_update ⟨["!"], ["x"], ["!x"]⟩ filtersUpdateMessages bangUpd
      = .ok .noMatch := by
  exact (C3_prefix_trigger_set.2.2.2.1 ⟨["!"], ["x"], ["!x"]⟩ filtersUpdateMessages
    bangUpd { text := "!test a b" } "!test" ["a", "b"] rfl rfl).1.mpr (by decide)

/-- Claim C2 (amended): each of the five mutators nulls its collection's
JSON cache whenever its deep-equality test fails and the new value is
written; `update_conversation` alone can change the stored collections on
its early-return path (the `setdefault` insertion of C2's counterexample)
without invalidating the cache. -/
theorem C2_amended_mutators_invalidate :
    (∀ (s : DictPersistence) (uid : Int) (d : List (PyKey × JsonValue)),
      s.userEntryEq uid d = false → (s.update_user_data uid d)._user_data_json = none) ∧
    (∀ (s : DictPersistence) (cid : Int) (d : List (PyKey × JsonValue)),
      s.chatEntryEq cid d = false → (s.update_chat_data cid d)._chat_data_json = none) ∧
    (∀ (s : DictPersistence) (d : List (String × JsonValue)),
      s.botEq d = false → (s.update_bot_data d)._bot_data_json = none) ∧
    (∀ (s : DictPersistence) (d : CDC),
      s.cdcCurEq d = false → (s.update_callback_data d)._callback_data_json = none) ∧
    (∀ (s : DictPersistence) (n : String) (k : ConvKey) (v : JsonValue),
      pyEq (s.convCurState n k) v = false →
        (s.update_conversation n k v)._conversations_json = none) := by
  refine ⟨?_, ?_, ?_, ?_, ?_⟩
  · intro s uid d hne; unfold DictPersistence.update_user_data; rw [hne]; simp
  · intro s cid d hne; unfold DictPersistence.update_chat_data; rw [hne]; simp
  · intro s d hne; unfold DictPersistence.update_bot_data; rw [hne]; simp
  · intro s d hne; unfold DictPersistence.update_callback_data; rw [hne]; simp
  · intro s n k v hne; unfold DictPersistence.update_conversation; rw [hne]; simp

/-- Witness for claim C2 (amended): writing bot data into a fresh store
and overwriting a seeded conversation state both null the corresponding
cache. -/
theorem C2_amended_mutators_invalidate_witness :
    freshStore.botEq [("x", .int 1)] = false ∧
    (freshStore.update_bot_data [("x", .int 1)])._bot_data_json = none ∧
    pyEq (convSeedStore.convCurState "g" [.int 1]) (.int 2) = false ∧
    (convSeedStore.update_conversation "g" [.int 1] (.int 2))._conversations_json = none :=
  ⟨rfl, C2_amended_mutators_invalidate.2.2.1 freshStore [("x", .int 1)] rfl, rfl,
    C2_amended_mutators_invalidate.2.2.2.2 convSeedStore "g" [.int 1] (.int 2) rfl⟩

/-- Claim C5 (amended): for the user, chat, bot and callback mutators a
deep-equal value is exactly a no-op (the state is returned unchanged) and
an unequal value changes exactly the addressed collection and nulls
exactly its own cache, leaving every sibling field untouched; for
`update_conversation`, a deep-equal new state still leaves behind the
materialization / `setdefault` insertion (and only that), while an
unequal state writes the entry and nulls only the conversations cache. -/
theorem C5_amended_noop_and_frame :
    (∀ (s : DictPersistence) (uid : Int) (d : List (PyKey × JsonValue)),
      s.userEntryEq uid d = true → s.update_user_data uid d = s) ∧
    (∀ (s : DictPersistence) (uid : Int) (d : List (PyKey × JsonValue)),
      s.userEntryEq uid d = false →
        s.update_user_data uid d
          = { s with _user_data := some (upsertInt (s._user_data.getD []) uid d)
                     _user_data_json := none }) ∧
    (∀ (s : DictPersistence) (cid : Int) (d : List (PyKey × JsonValue)),
      s.chatEntryEq cid d = true → s.update_chat_data cid d = s) ∧
    (∀ (s : DictPersistence) (cid : Int) (d : List (PyKey × JsonValue)),
      s.chatEntryEq cid d = false →
        s.update_chat_data cid d
          = { s with _chat_data := some (upsertInt (s._chat_data.getD []) cid d)
                     _chat_data_json := none }) ∧
    (∀ (s : DictPersistence) (d : List (String × JsonValue)),
      s.botEq d = true → s.update_bot_data d = s) ∧
    (∀ (s : DictPersistence) (d : List (String × JsonValue)),
      s.botEq d = false →
        s.update_bot_data d = { s with _bot_data := some d, _bot_data_json := none }) ∧
    (∀ (s : DictPersistence) (d : CDC),
      s.cdcCurEq d = true → s.update_callback_data d = s) ∧
    (∀ (s : DictPersistence) (d : CDC),
      s.cdcCurEq d = false →
        s.update_callback_data d
          = { s with _callback_data := some (d.1, d.2), _callback_data_json := none }) ∧
    (∀ (s : DictPersistence) (n : String) (k : ConvKey) (v : JsonValue),
      pyEq (s.convCurState n k) v = true →
        s.update_conversation n k v
          = { s with _conversations := some (s.convAfterSetdefault n) }) ∧
    (∀ (s : DictPersistence) (n : String) (k : ConvKey) (v : JsonValue),
      pyEq (s.convCurState n k) v = false →
        s.update_conversation n k v
          = { s with
              _conversations :=
                some (upsertStr (s.convAfterSetdefault n) n
                  (upsertConvKey ((lookupStr (s.convAfterSetdefault n) n).getD []) k v))
              _conversations_json := none }) := by
  refine ⟨?_, ?_, ?_, ?_, ?_, ?_, ?_, ?_, ?_, ?_⟩
  · intro s uid d heq
    unfold DictPersistence.update_user_data
    rw [heq]
    simp only [if_true]
    have hud : ∃ m, s._user_data = some m := by
      unfold DictPersistence.userEntryEq at heq
      cases h : s._user_data with
      | none => rw [h] at heq; simp [lookupInt] at heq
      | some m => exact ⟨m, rfl⟩
    obtain ⟨m, hm⟩ := hud
    rw [hm]
    simp only [Option.getD_some]
    rw [← hm]
  · intro s uid d hne; unfold DictPersistence.update_user_data; rw [hne]; simp
  · intro s cid d heq
    unfold DictPersistence.update_chat_data
    rw [heq]
    simp only [if_true]
    have hcd : ∃ m, s._chat_data = some m := by
      unfold DictPersistence.chatEntryEq at heq
      cases h : s._chat_data with
      | none => rw [h] at heq; simp [lookupInt] at heq
      | some m => exact ⟨m, rfl⟩
    obtain ⟨m, hm⟩ := hcd
    rw [hm]
    simp only [Option.getD_some]
    rw [← hm]
  · intro s cid d hne; unfold DictPersistence.update_chat_data; rw [hne]; simp
  · intro s d heq; unfold DictPersistence.update_bot_data; rw [heq]; simp
  · intro s d hne; unfold DictPersistence.update_bot_data; rw [hne]; simp
  · intro s d heq; unfold DictPersistence.update_callback_data; rw [heq]; simp
  · intro s d hne; unfold DictPersistence.update_callback_data; rw [hne]; simp
  · intro s n k v heq; unfold DictPersistence.update_conversation; rw [heq]; simp
  · intro s n k v hne; unfold DictPersistence.update_conversation; rw [hne]; simp

/-- Witness for claim C5 (amended): repeating `update_bot_data` with the
same dict is a no-op the second time, and the first write of user data
changes exactly the user collection and its cache. -/
theorem C5_amended_noop_and_frame_witness :
    (freshStore.update_bot_data [("x", .int 1)]).botEq [("x", .int 1)] = true ∧
    (freshStore.update_bot_data [("x", .int 1)]).update_bot_data [("x", .int 1)]
      = freshStore.update_bot_data [("x", .int 1)] ∧
    freshStore.userEntryEq 1 [(.str "a", .int 1)] = false ∧
    freshStore.update_user_data 1 [(.str "a", .int 1)]
      = { freshStore with
          _user_data := some (upsertInt (freshStore._user_data.getD []) 1 [(.str "a", .int 1)])
          _user_data_json := none } :=
  ⟨rfl,
    C5_amended_noop_and_frame.2.2.2.2.1 (freshStore.update_bot_data [("x", .int 1)])
      [("x", .int 1)] rfl,
    rfl,
    C5_amended_noop_and_frame.2.1 freshStore 1 [(.str "a", .int 1)] rfl⟩

/-- Claim C8 (amended): every `*_json` getter returns the cached string
verbatim when the cache field is present and truthy (no recomputation —
the result does not depend on the live collection), and on a cache miss
the four `json.dumps`-backed getters serialize the live collection while
`conversations_json` does so only when the collection was materialized
(raising otherwise, claim C10); no getter writes any field — each is a
pure function of the store in this embedding, mirroring the
assignment-free property bodies in the source, so a recomputed result is
never stored as a new cache. -/
theorem C8_amended_getters :
    (∀ (s : DictPersistence) (j : String), s._user_data_json = some j → j ≠ "" →
      s.user_data_json = j) ∧
    (∀ s : DictPersistence, s._user_data_json = none →
      s.user_data_json = pyDumps (userChatDataToJson s._user_data)) ∧
    (∀ (s : DictPersistence) (j : String), s._chat_data_json = some j → j ≠ "" →
      s.chat_data_json = j) ∧
    (∀ s : DictPersistence, s._chat_data_json = none →
      s.chat_data_json = pyDumps (userChatDataToJson s._chat_data)) ∧
    (∀ (s : DictPersistence) (j : String), s._bot_data_json = some j → j ≠ "" →
      s.bot_data_json = j) ∧
    (∀ s : DictPersistence, s._bot_data_json = none →
      s.bot_data_json = pyDumps (botDataToJson s._bot_data)) ∧
    (∀ (s : DictPersistence) (j : String), s._callback_data_json = some j → j ≠ "" →
      s.callback_data_json = j) ∧
    (∀ s : DictPersistence, s._callback_data_json = none →
      s.callback_data_json = pyDumps (cdcToJson s._callback_data)) ∧
    (∀ (s : DictPersistence) (j : String), s._conversations_json = some j → j ≠ "" →
      s.conversations_json = .ok j) ∧
    (∀ (s : DictPersistence) (c : List (String × List (ConvKey × JsonValue))),
      s._conversations_json = none → s._conversations = some c →
      s.conversations_json = .ok (encodeConversationsToJson c)) := by
  have hHit : ∀ (j : String), j ≠ "" → jsonCacheHit (some j) = true := by
    intro j hne
    unfold jsonCacheHit
    have h₁ : j.isEmpty = false := by
      rw [Bool.eq_false_iff]
      intro h
      exact hne ((String.isEmpty_iff j).mp h)
    simp [h₁]
  refine ⟨?_, ?_, ?_, ?_, ?_, ?_, ?_, ?_, ?_, ?_⟩
  · intro s j hsome hne
    unfold DictPersistence.user_data_json
    simp [hsome, hHit j hne]
  · intro s hnone
    unfold DictPersistence.user_data_json
    simp [hnone, jsonCacheHit]
  · intro s j hsome hne
    unfold DictPersistence.chat_data_json
    simp [hsome, hHit j hne]
  · intro s hnone
    unfold DictPersistence.chat_data_json
    simp [hnone, jsonCacheHit]
  · intro s j hsome hne
    unfold DictPersistence.bot_data_json
    simp [hsome, hHit j hne]
  · intro s hnone
    unfold DictPersistence.bot_data_json
    simp [hnone, jsonCacheHit]
  · intro s j hsome hne
    unfold DictPersistence.callback_data_json
    simp [hsome, hHit j hne]
  · intro s hnone
    unfold DictPersistence.callback_data_json
    simp [hnone, jsonCacheHit]
  · intro s j hsome hne
    unfold DictPersistence.conversations_json
    simp [hsome, hHit j hne]
  · intro s c hnone hc
    unfold DictPersistence.conversations_json
    simp [hnone, jsonCacheHit, hc]

/-- Witness for claim C8 (amended): a store whose bot-data cache holds
"CACHED" returns it verbatim even though the live collection serializes
differently, and a fresh store's cache-miss read serializes the absent
collection. -/
theorem C8_amended_getters_witness :
    ({ _bot_data := some [("x", JsonValue.int 2)], _bot_data_json := some "CACHED" }
        : DictPersistence).bot_data_json = "CACHED" ∧
    pyDumps (botDataToJson (some [("x", JsonValue.int 2)])) ≠ "CACHED" ∧
    freshStore.user_data_json = pyDumps (userChatDataToJson freshStore._user_data) :=
  ⟨C8_amended_getters.2.2.2.2.1
      { _bot_data := some [("x", JsonValue.int 2)], _bot_data_json := some "CACHED" }
      "CACHED" rfl (by decide),
    by decide,
    C8_amended_getters.2.1 freshStore rfl⟩

theorem asString_data (s : String) : s.data.asString = s := rfl

theorem data_asString (l : List Char) : l.asString.data = l := rfl

theorem asString_cons_ne_empty (c : Char) (cs : List Char) : (c :: cs).asString ≠ "" := by
  intro h
  have h₂ : (c :: cs) = ([] : List Char) := congrArg String.data h
  exact List.noConfusion h₂

theorem skipWs_not_ws {c : Char} (l : List Char) (h : isJsonWs c = false) :
    skipWs (c :: l) = c :: l := by
  unfold skipWs
  rw [List.dropWhile_cons, h]
  simp

theorem escChar_safe {c : Char} (h : safeChar c = true) : escChar c = [c] := by
  unfold safeChar at h
  simp only [Bool.and_eq_true, decide_eq_true_eq] at h
  obtain ⟨⟨⟨h₁, h₂⟩, h₃⟩, h₄⟩ := h
  have hn : c ≠ '\n' := by intro he; subst he; exact absurd h₁ (by decide)
  have ht : c ≠ '\t' := by intro he; subst he; exact absurd h₁ (by decide)
  have hr : c ≠ '\r' := by intro he; subst he; exact absurd h₁ (by decide)
  have h8 : c ≠ '\x08' := by intro he; subst he; exact absurd h₁ (by decide)
  have hc : c ≠ '\x0c' := by intro he; subst he; exact absurd h₁ (by decide)
  unfold escChar
  rw [if_neg h₃, if_neg h₄, if_neg hn, if_neg ht, if_neg hr, if_neg h8, if_neg hc, if_neg]
  simp only [Bool.or_eq_true, not_or]
  constructor
  · simp only [decide_eq_true_eq, not_lt]
    omega
  · simp only [decide_eq_true_eq, not_le]
    omega

theorem parseStringBody_quote (rest : List Char) :
    parseStringBody ('"' :: rest) = some ([], rest) := by
  simp [parseStringBody]

theorem parseStringBody_safe_char {c : Char} (l : List Char) (h : safeChar c = true) :
    parseStringBody (c :: l) = (parseStringBody l).map fun p => (c :: p.1, p.2) := by
  unfold safeChar at h
  simp only [Bool.and_eq_true, decide_eq_true_eq] at h
  obtain ⟨⟨⟨h₁, h₂⟩, h₃⟩, h₄⟩ := h
  rw [parseStringBody]
  rw [if_neg h₃, if_neg h₄, if_neg (by omega)]

theorem parseStringBody_print (s : List Char) (rest : List Char)
    (h : s.all safeChar = true) :
    parseStringBody (s.flatMap escChar ++ ('"' :: rest)) = some (s, rest) := by
  induction s with
  | nil =>
    simp only [List.flatMap_nil, List.nil_append]
    exact parseStringBody_quote rest
  | cons c cs ih =>
    simp only [List.all_cons, Bool.and_eq_true] at h
    obtain ⟨hc, hcs⟩ := h
    rw [List.flatMap_cons, escChar_safe hc]
    simp only [List.singleton_append, List.cons_append]
    rw [parseStringBody_safe_char _ hc]
    simp only [List.nil_append]
    rw [ih hcs]
    rfl

theorem digitChar_toNat (d : Nat) (h : d < 10) : (Nat.digitChar d).toNat = 48 + d := by
  interval_cases d <;> decide

theorem digitChar_isDigit (d : Nat) (h : d < 10) : (Nat.digitChar d).isDigit = true := by
  interval_cases d <;> decide

theorem digitChar_not_ws (d : Nat) (h : d < 10) : isJsonWs (Nat.digitChar d) = false := by
  interval_cases d <;> decide

theorem digitChar_safe (d : Nat) (h : d < 10) : safeChar (Nat.digitChar d) = true := by
  interval_cases d <;> decide

theorem natDecCharsCore_head : ∀ fuel n, n < fuel →
    ∃ d tl, d < 10 ∧ natDecCharsCore fuel n = Nat.digitChar d :: tl := by
  intro fuel
  induction fuel with
  | zero => intro n h; omega
  | succ fuel ih =>
    intro n h
    by_cases h10 : n < 10
    · exact ⟨n, [], h10, by rw [natDecCharsCore, if_pos h10]⟩
    · obtain ⟨d, tl, hd, heq⟩ := ih (n / 10) (by omega)
      refine ⟨d, tl ++ [Nat.digitChar (n % 10)], hd, ?_⟩
      rw [natDecCharsCore, if_neg h10, heq]
      rfl

theorem natDecCharsCore_mem : ∀ fuel n c, n < fuel → c ∈ natDecCharsCore fuel n →
    ∃ d, d < 10 ∧ c = Nat.digitChar d := by
  intro fuel
  induction fuel with
  | zero => intro n c h; omega
  | succ fuel ih =>
    intro n c h hmem
    rw [natDecCharsCore] at hmem
    by_cases h10 : n < 10
    · rw [if_pos h10] at hmem
      simp only [List.mem_singleton] at hmem
      exact ⟨n, h10, hmem⟩
    · rw [if_neg h10] at hmem
      rw [List.mem_append] at hmem
      rcases hmem with hm | hm
      · exact ih (n / 10) c (by omega) hm
      · simp only [List.mem_singleton] at hm
        exact ⟨n % 10, by omega, hm⟩

theorem natDecCharsCore_foldl : ∀ fuel n a, n < fuel →
    (natDecCharsCore fuel n).foldl (fun x c => x * 10 + (c.toNat - 48)) a
      = a * 10 ^ (natDecCharsCore fuel n).length + n := by
  intro fuel
  induction fuel with
  | zero => intro n a h; omega
  | succ fuel ih =>
    intro n a h
    rw [natDecCharsCore]
    by_cases h10 : n < 10
    · rw [if_pos h10]
      simp only [List.foldl_cons, List.foldl_nil, List.length_cons, List.length_nil,
        pow_one, digitChar_toNat n h10]
      omega
    · rw [if_neg h10]
      rw [List.foldl_append, ih (n / 10) a (by omega)]
      simp only [List.foldl_cons, List.foldl_nil, List.length_append, List.length_cons,
        List.length_nil]
      rw [digitChar_toNat (n % 10) (by omega)]
      have hsub : 48 + n % 10 - 48 = n % 10 := by omega
      rw [hsub, pow_succ]
      have hdm := Nat.div_add_mod n 10
      have hring : (a * 10 ^ (natDecCharsCore fuel (n / 10)).length + n / 10) * 10 + n % 10
          = a * (10 ^ (natDecCharsCore fuel (n / 10)).length * 10) + (10 * (n / 10) + n % 10) := by
        ring
      rw [hring, hdm]

theorem parseDigits_run (ds rest : List Char) (acc : Nat)
    (hds : ∀ c ∈ ds, c.isDigit = true) (hrest : numOk rest = true) :
    parseDigits (ds ++ rest) acc
      = (ds.foldl (fun x c => x * 10 + (c.toNat - 48)) acc, rest) := by
  induction ds generalizing acc with
  | nil =>
    simp only [List.nil_append, List.foldl_nil]
    cases rest with
    | nil => rfl
    | cons c r =>
      unfold numOk at hrest
      simp only [Bool.not_eq_true', Bool.or_eq_false_iff] at hrest
      rw [parseDigits]
      simp [hrest.1.1]
  | cons d ds' ih =>
    have hd : d.isDigit = true := hds d (List.mem_cons_self d ds')
    rw [List.cons_append, parseDigits, hd]
    simp only [if_true, List.foldl_cons]
    exact ih _ (fun c hc => hds c (List.mem_cons_of_mem d hc))

theorem natDecChars_head (n : Nat) :
    ∃ d tl, d < 10 ∧ natDecChars n = Nat.digitChar d :: tl :=
  natDecCharsCore_head (n + 1) n (by omega)

theorem numOk_floatFollows {rest : List Char} (h : numOk rest = true) :
    floatFollows rest = false := by
  cases rest with
  | nil => rfl
  | cons c r =>
    unfold numOk at h
    simp only [Bool.not_eq_true', Bool.or_eq_false_iff] at h
    unfold floatFollows
    simp [h.1.2, h.2, h.1.1.2]

theorem parseDigits_natDec (n : Nat) (rest : List Char) (hrest : numOk rest = true)
    (d : Nat) (tl : List Char) (hd : d < 10)
    (heq : natDecChars n = Nat.digitChar d :: tl) :
    parseDigits (tl ++ rest) d = (n, rest) := by
  have hall : ∀ c ∈ tl, c.isDigit = true := by
    intro c hc
    have hmem : c ∈ natDecChars n := by
      rw [heq]; exact List.mem_cons_of_mem _ hc
    obtain ⟨d', hd', hcd⟩ := natDecCharsCore_mem (n + 1) n c (by omega) hmem
    rw [hcd]; exact digitChar_isDigit d' hd'
  rw [parseDigits_run tl rest d hall hrest]
  have hfold := natDecCharsCore_foldl (n + 1) n 0 (by omega)
  rw [show natDecCharsCore (n + 1) n = natDecChars n from rfl, heq] at hfold
  simp only [List.foldl_cons] at hfold
  rw [digitChar_toNat d hd] at hfold
  simp only [Nat.zero_mul, Nat.zero_add, Nat.add_sub_cancel_left] at hfold
  rw [hfold]

theorem parseValueCore_int (fuel : Nat) (n : Int) (rest : List Char)
    (hrest : numOk rest = true) :
    parseValueCore (fuel + 1) (intDecChars n ++ rest) = some (.int n, rest) := by
  obtain ⟨d, tl, hd, heq⟩ := natDecChars_head n.natAbs
  have hpd : parseDigits (tl ++ rest) ((Nat.digitChar d).toNat - 48) = (n.natAbs, rest) := by
    rw [digitChar_toNat d hd]
    have hsub : 48 + d - 48 = d := by omega
    rw [hsub]
    exact parseDigits_natDec n.natAbs rest hrest d tl hd heq
  unfold intDecChars
  by_cases hneg : n < 0
  · rw [if_pos hneg, heq]
    simp only [List.cons_append]
    rw [parseValueCore]
    rw [if_neg (by decide : ¬ ('-' : Char) = 'n'), if_neg (by decide : ¬ ('-' : Char) = 't'),
      if_neg (by decide : ¬ ('-' : Char) = 'f'), if_neg (by decide : ¬ ('-' : Char) = '"'),
      if_neg (by decide : ¬ ('-' : Char) = '['), if_neg (by decide : ¬ ('-' : Char) = '{'),
      if_pos (by decide : ('-' : Char) = '-')]
    rw [parseNegNumber, digitChar_isDigit d hd]
    simp only [if_true]
    rw [hpd, numOk_floatFollows hrest]
    simp only [Bool.false_eq_true, if_false]
    have habs : -(n.natAbs : Int) = n := by omega
    rw [habs]
  · rw [if_neg hneg, heq]
    simp only [List.cons_append]
    rw [parseValueCore]
    have hdig : (Nat.digitChar d).isDigit = true := digitChar_isDigit d hd
    have hne1 : Nat.digitChar d ≠ 'n' := by
      intro he; rw [he] at hdig; exact absurd hdig (by decide)
    have hne2 : Nat.digitChar d ≠ 't' := by
      intro he; rw [he] at hdig; exact absurd hdig (by decide)
    have hne3 : Nat.digitChar d ≠ 'f' := by
      intro he; rw [he] at hdig; exact absurd hdig (by decide)
    have hne4 : Nat.digitChar d ≠ '"' := by
      intro he; rw [he] at hdig; exact absurd hdig (by decide)
    have hne5 : Nat.digitChar d ≠ '[' := by
      intro he; rw [he] at hdig; exact absurd hdig (by decide)
    have hne6 : Nat.digitChar d ≠ '{' := by
      intro he; rw [he] at hdig; exact absurd hdig (by decide)
    have hne7 : Nat.digitChar d ≠ '-' := by
      intro he; rw [he] at hdig; exact absurd hdig (by decide)
    rw [if_neg hne1, if_neg hne2, if_neg hne3, if_neg hne4, if_neg hne5, if_neg hne6,
      if_neg hne7, hdig]
    simp only [if_true]
    rw [hpd, numOk_floatFollows hrest]
    simp only [Bool.false_eq_true, if_false]
    have habs : (n.natAbs : Int) = n := by omega
    rw [habs]

theorem skipWs_space (X : List Char) : skipWs (' ' :: X) = skipWs X := by
  unfold skipWs
  rw [List.dropWhile_cons]
  simp [isJsonWs]

theorem parseArrItems_ws (fuel : Nat) (X : List Char) :
    parseArrItems fuel (' ' :: X) = parseArrItems fuel X := by
  cases fuel with
  | zero => rfl
  | succ fuel => rw [parseArrItems, parseArrItems, skipWs_space]

theorem parseObjItems_ws (fuel : Nat) (X : List Char) :
    parseObjItems fuel (' ' :: X) = parseObjItems fuel X := by
  cases fuel with
  | zero => rfl
  | succ fuel => rw [parseObjItems, parseObjItems, skipWs_space]

theorem parseValueCore_n (fuel : Nat) (X : List Char) :
    parseValueCore (fuel + 1) ('n' :: X) = parseNullLit X := by
  rw [parseValueCore, if_pos (by decide : ('n' : Char) = 'n')]

theorem parseValueCore_t (fuel : Nat) (X : List Char) :
    parseValueCore (fuel + 1) ('t' :: X) = parseTrueLit X := by
  rw [parseValueCore, if_neg (by decide : ¬ ('t' : Char) = 'n'),
    if_pos (by decide : ('t' : Char) = 't')]

theorem parseValueCore_f (fuel : Nat) (X : List Char) :
    parseValueCore (fuel + 1) ('f' :: X) = parseFalseLit X := by
  rw [parseValueCore, if_neg (by decide : ¬ ('f' : Char) = 'n'),
    if_neg (by decide : ¬ ('f' : Char) = 't'), if_pos (by decide : ('f' : Char) = 'f')]

theorem parseValueCore_quote (fuel : Nat) (X : List Char) :
    parseValueCore (fuel + 1) ('"' :: X)
      = (parseStringBody X).map fun p => (.str p.1.asString, p.2) := by
  rw [parseValueCore, if_neg (by decide : ¬ ('"' : Char) = 'n'),
    if_neg (by decide : ¬ ('"' : Char) = 't'), if_neg (by decide : ¬ ('"' : Char) = 'f'),
    if_pos (by decide : ('"' : Char) = '"')]

theorem parseValueCore_lbrack_empty (fuel : Nat) (rest : List Char)
    (hws : isJsonWs ']' = false := by decide) :
    parseValueCore (fuel + 1) ('[' :: (']' :: rest)) = some (.arr [], rest) := by
  rw [parseValueCore, if_neg (by decide : ¬ ('[' : Char) = 'n'),
    if_neg (by decide : ¬ ('[' : Char) = 't'), if_neg (by decide : ¬ ('[' : Char) = 'f'),
    if_neg (by decide : ¬ ('[' : Char) = '"'), if_pos (by decide : ('[' : Char) = '[')]
  rw [skipWs_not_ws _ hws]
  rfl

theorem parseValueCore_lbrack_cons (fuel : Nat) (c : Char) (Y : List Char)
    (hws : isJsonWs c = false) (hnb : c ≠ ']') :
    parseValueCore (fuel + 1) ('[' :: (c :: Y))
      = (parseArrItems fuel (c :: Y)).map fun p => (.arr p.1, p.2) := by
  rw [parseValueCore, if_neg (by decide : ¬ ('[' : Char) = 'n'),
    if_neg (by decide : ¬ ('[' : Char) = 't'), if_neg (by decide : ¬ ('[' : Char) = 'f'),
    if_neg (by decide : ¬ ('[' : Char) = '"'), if_pos (by decide : ('[' : Char) = '[')]
  rw [skipWs_not_ws _ hws]
  split
  next r heq =>
    injection heq with h₁ h₂
    exact absurd h₁ hnb
  next => rfl

theorem parseValueCore_lbrace_empty (fuel : Nat) (rest : List Char) :
    parseValueCore (fuel + 1) ('{' :: ('}' :: rest)) = some (.obj [], rest) := by
  rw [parseValueCore, if_neg (by decide : ¬ ('{' : Char) = 'n'),
    if_neg (by decide : ¬ ('{' : Char) = 't'), if_neg (by decide : ¬ ('{' : Char) = 'f'),
    if_neg (by decide : ¬ ('{' : Char) = '"'), if_neg (by decide : ¬ ('{' : Char) = '['),
    if_pos (by decide : ('{' : Char) = '{')]
  rw [skipWs_not_ws _ (by decide : isJsonWs '}' = false)]
  rfl

theorem parseValueCore_lbrace_cons (fuel : Nat) (c : Char) (Y : List Char)
    (hws : isJsonWs c = false) (hnb : c ≠ '}') :
    parseValueCore (fuel + 1) ('{' :: (c :: Y))
      = (parseObjItems fuel (c :: Y)).map fun p => (.obj (objFromPairs p.1), p.2) := by
  rw [parseValueCore, if_neg (by decide : ¬ ('{' : Char) = 'n'),
    if_neg (by decide : ¬ ('{' : Char) = 't'), if_neg (by decide : ¬ ('{' : Char) = 'f'),
    if_neg (by decide : ¬ ('{' : Char) = '"'), if_neg (by decide : ¬ ('{' : Char) = '['),
    if_pos (by decide : ('{' : Char) = '{')]
  rw [skipWs_not_ws _ hws]
  split
  next r heq =>
    injection heq with h₁ h₂
    exact absurd h₁ hnb
  next => rfl

theorem dumpChars_head (v : JsonValue) :
    ∃ c tl, dumpChars v = c :: tl ∧ isJsonWs c = false ∧ c ≠ ']' := by
  cases v with
  | null => exact ⟨'n', _, rfl, by decide, by decide⟩
  | bool b =>
    cases b with
    | false => exact ⟨'f', _, rfl, by decide, by decide⟩
    | true => exact ⟨'t', _, rfl, by decide, by decide⟩
  | int n =>
    show ∃ c tl, intDecChars n = c :: tl ∧ isJsonWs c = false ∧ c ≠ ']'
    unfold intDecChars
    by_cases hneg : n < 0
    · rw [if_pos hneg]
      exact ⟨'-', _, rfl, by decide, by decide⟩
    · rw [if_neg hneg]
      obtain ⟨d, tl, hd, heq⟩ := natDecChars_head n.natAbs
      refine ⟨Nat.digitChar d, tl, heq, digitChar_not_ws d hd, ?_⟩
      intro he
      have hdi := digitChar_isDigit d hd
      rw [he] at hdi
      exact absurd hdi (by decide)
  | str s => exact ⟨'"', _, rfl, by decide, by decide⟩
  | arr l =>
    cases l with
    | nil => exact ⟨'[', _, rfl, by decide, by decide⟩
    | cons x xs => exact ⟨'[', _, rfl, by decide, by decide⟩
  | obj l =>
    cases l with
    | nil => exact ⟨'{', _, rfl, by decide, by decide⟩
    | cons kv kvs =>
      obtain ⟨k, v⟩ := kv
      exact ⟨'{', _, rfl, by decide, by decide⟩

theorem escStrChars_two_le (s : String) : 2 ≤ (escStrChars s).length := by
  unfold escStrChars
  simp only [List.length_cons, List.length_append, List.length_singleton]
  omega

theorem upsertStr_of_none {α : Type} (l : List (String × α)) (k : String) (v : α)
    (h : lookupStr l k = none) : upsertStr l k v = l ++ [(k, v)] := by
  induction l with
  | nil => rfl
  | cons hd tl ih =>
    obtain ⟨k₀, v₀⟩ := hd
    unfold lookupStr at h
    unfold upsertStr
    by_cases hk : k₀ = k
    · rw [if_pos hk] at h
      exact absurd h (by simp)
    · rw [if_neg hk] at h
      rw [if_neg hk, ih h]
      rfl

theorem lookupStr_append_left {α : Type} (a b : List (String × α)) (k : String)
    (h : lookupStr a k = none) : lookupStr (a ++ b) k = lookupStr b k := by
  induction a with
  | nil => rfl
  | cons hd tl ih =>
    obtain ⟨k₀, v₀⟩ := hd
    rw [List.cons_append]
    rw [show lookupStr ((k₀, v₀) :: tl) k
        = if k₀ = k then some v₀ else lookupStr tl k from rfl] at h
    by_cases hk : k₀ = k
    · rw [if_pos hk] at h
      exact absurd h (by simp)
    · rw [if_neg hk] at h
      rw [show lookupStr ((k₀, v₀) :: (tl ++ b)) k
          = if k₀ = k then some v₀ else lookupStr (tl ++ b) k from rfl, if_neg hk]
      exact ih h

theorem distinctKeys_cons {k : String} {v : JsonValue} {rest : List (String × JsonValue)}
    (h : distinctKeys ((k, v) :: rest) = true) :
    (∀ kv ∈ rest, kv.1 ≠ k) ∧ distinctKeys rest = true := by
  unfold distinctKeys at h
  simp only [Bool.and_eq_true, Bool.not_eq_true', List.any_eq_false] at h
  obtain ⟨h₁, h₂⟩ := h
  refine ⟨?_, h₂⟩
  intro kv hkv
  have := h₁ kv hkv
  simpa using this

theorem foldl_upsert_extend (l : List (String × JsonValue)) :
    ∀ acc : List (String × JsonValue), distinctKeys l = true →
    (∀ kv ∈ l, lookupStr acc kv.1 = (none : Option JsonValue)) →
    l.foldl (fun d kv => upsertStr d kv.1 kv.2) acc = acc ++ l := by
  induction l with
  | nil =>
    intro acc _ _
    simp
  | cons kv tl ih =>
    intro acc hdist hacc
    obtain ⟨k, v⟩ := kv
    obtain ⟨hne, hdtl⟩ := distinctKeys_cons hdist
    rw [List.foldl_cons]
    have hk : lookupStr acc k = none := hacc (k, v) (List.mem_cons_self _ _)
    rw [upsertStr_of_none acc k v hk]
    rw [ih (acc ++ [(k, v)]) hdtl ?_]
    · simp
    · intro kv₂ hkv₂
      rw [lookupStr_append_left acc [(k, v)] kv₂.1 (hacc kv₂ (List.mem_cons_of_mem _ hkv₂))]
      rw [show lookupStr [(k, v)] kv₂.1
          = if k = kv₂.1 then some v else lookupStr [] kv₂.1 from rfl,
        if_neg (Ne.symm (hne kv₂ hkv₂))]
      rfl

theorem objFromPairs_distinct (l : List (String × JsonValue)) (h : distinctKeys l = true) :
    objFromPairs l = l := by
  unfold objFromPairs
  rw [foldl_upsert_extend l [] h (by intro kv _; rfl)]
  simp

theorem safeJsonList_cons {x : JsonValue} {xs : List JsonValue}
    (h : safeJsonList (x :: xs) = true) : safeJson x = true ∧ safeJsonList xs = true := by
  unfold safeJsonList at h
  simpa [Bool.and_eq_true] using h

theorem safeJsonObj_cons {k : String} {v : JsonValue} {kvs : List (String × JsonValue)}
    (h : safeJsonObj ((k, v) :: kvs) = true) :
    safeStr k = true ∧ safeJson v = true ∧ safeJsonObj kvs = true := by
  unfold safeJsonObj at h
  simpa [Bool.and_eq_true, and_assoc] using h

theorem parse_dump_roundtrip : ∀ fuel : Nat,
    (∀ (v : JsonValue) (rest : List Char), safeJson v = true →
      (dumpChars v).length < fuel → numOk rest = true →
      parseValueCore fuel (dumpChars v ++ rest) = some (v, rest)) ∧
    (∀ (x : JsonValue) (xs : List JsonValue) (rest : List Char),
      safeJson x = true → safeJsonList xs = true →
      (dumpChars x).length + (dumpArrTail xs).length + 1 < fuel →
      parseArrItems fuel ((dumpChars x ++ dumpArrTail xs) ++ (']' :: rest))
        = some (x :: xs, rest)) ∧
    (∀ (k : String) (v : JsonValue) (kvs : List (String × JsonValue)) (rest : List Char),
      safeStr k = true → safeJson v = true → safeJsonObj kvs = true →
      (dumpChars v).length + (dumpObjTail kvs).length + 1 < fuel →
      parseObjItems fuel
          ((escStrChars k ++ ':' :: ' ' :: dumpChars v ++ dumpObjTail kvs) ++ ('}' :: rest))
        = some ((k, v) :: kvs, rest)) := by
  intro fuel
  induction fuel with
  | zero =>
    refine ⟨?_, ?_, ?_⟩
    · intro v rest _ h _
      omega
    · intro x xs rest _ _ h
      omega
    · intro k v kvs rest _ _ _ h
      omega
  | succ fuel ih =>
    obtain ⟨ihv, iha, iho⟩ := ih
    refine ⟨?_, ?_, ?_⟩
    ·
      intro v rest hsafe hlen hnum
      cases v with
      | null =>
        rw [show dumpChars .null ++ rest = 'n' :: ('u' :: 'l' :: 'l' :: rest) from rfl,
          parseValueCore_n]
        rfl
      | bool b =>
        cases b with
        | true =>
          rw [show dumpChars (.bool true) ++ rest = 't' :: ('r' :: 'u' :: 'e' :: rest) from rfl,
            parseValueCore_t]
          rfl
        | false =>
          rw [show dumpChars (.bool false) ++ rest
              = 'f' :: ('a' :: 'l' :: 's' :: 'e' :: rest) from rfl, parseValueCore_f]
          rfl
      | int n => exact parseValueCore_int fuel n rest hnum
      | str s =>
        have hs : s.data.all safeChar = true := by
          simpa [safeJson, safeStr] using hsafe
        have hshape : dumpChars (.str s) ++ rest
            = '"' :: (s.data.flatMap escChar ++ ('"' :: rest)) := by
          show escStrChars s ++ rest = _
          unfold escStrChars
          simp [List.append_assoc]
        rw [hshape, parseValueCore_quote, parseStringBody_print s.data rest hs]
        rfl
      | arr l =>
        cases l with
        | nil =>
          rw [show dumpChars (.arr []) ++ rest = '[' :: (']' :: rest) from rfl]
          exact parseValueCore_lbrack_empty fuel rest
        | cons x xs =>
          have hsl : safeJson x = true ∧ safeJsonList xs = true := by
            have h₀ : safeJsonList (x :: xs) = true := by simpa [safeJson] using hsafe
            exact safeJsonList_cons h₀
          obtain ⟨c, tl, hceq, hws, hnb⟩ := dumpChars_head x
          have hshape : dumpChars (.arr (x :: xs)) ++ rest
              = '[' :: (c :: (tl ++ (dumpArrTail xs ++ (']' :: rest)))) := by
            show ('[' :: ((dumpChars x ++ dumpArrTail xs) ++ [']'])) ++ rest = _
            simp [hceq, List.append_assoc]
          rw [hshape, parseValueCore_lbrack_cons fuel c _ hws hnb]
          have hback : c :: (tl ++ (dumpArrTail xs ++ (']' :: rest)))
              = (dumpChars x ++ dumpArrTail xs) ++ (']' :: rest) := by
            simp [hceq, List.append_assoc]
          rw [hback]
          have hlen₂ : (dumpChars x).length + (dumpArrTail xs).length + 1 < fuel := by
            have hl : (dumpChars (.arr (x :: xs))).length
                = (dumpChars x).length + (dumpArrTail xs).length + 2 := by
              show ('[' :: ((dumpChars x ++ dumpArrTail xs) ++ [']'])).length = _
              simp [List.length_append]
              omega
            omega
          rw [iha x xs rest hsl.1 hsl.2 hlen₂]
          rfl
      | obj l =>
        cases l with
        | nil =>
          rw [show dumpChars (.obj []) ++ rest = '{' :: ('}' :: rest) from rfl]
          exact parseValueCore_lbrace_empty fuel rest
        | cons kv kvs =>
          obtain ⟨k, v⟩ := kv
          have hsplit : distinctKeys ((k, v) :: kvs) = true ∧ safeJsonObj ((k, v) :: kvs) = true := by
            simpa [safeJson, Bool.and_eq_true] using hsafe
          obtain ⟨hsk, hsv, hskvs⟩ := safeJsonObj_cons hsplit.2
          have hshape : dumpChars (.obj ((k, v) :: kvs)) ++ rest
              = '{' :: ('"' :: ((k.data.flatMap escChar)
                  ++ (['"'] ++ (':' :: ' ' :: (dumpChars v
                    ++ (dumpObjTail kvs ++ ('}' :: rest))))))) := by
            show ('{' :: ((escStrChars k ++ ':' :: ' ' :: dumpChars v ++ dumpObjTail kvs) ++ ['}']))
                ++ rest = _
            unfold escStrChars
            simp [List.append_assoc]
          rw [hshape, parseValueCore_lbrace_cons fuel '"' _ (by decide) (by decide)]
          have hback : ('"' : Char) :: ((k.data.flatMap escChar)
                ++ (['"'] ++ (':' :: ' ' :: (dumpChars v ++ (dumpObjTail kvs ++ ('}' :: rest))))))
              = (escStrChars k ++ ':' :: ' ' :: dumpChars v ++ dumpObjTail kvs) ++ ('}' :: rest) := by
            unfold escStrChars
            simp [List.append_assoc]
          rw [hback]
          have hlen₂ : (dumpChars v).length + (dumpObjTail kvs).length + 1 < fuel := by
            have hesc := escStrChars_two_le k
            have hl : (dumpChars (.obj ((k, v) :: kvs))).length
                = (escStrChars k).length + 2 + (dumpChars v).length
                  + (dumpObjTail kvs).length + 2 := by
              show ('{' :: ((escStrChars k ++ ':' :: ' ' :: dumpChars v ++ dumpObjTail kvs) ++ ['}'])).length = _
              simp [List.length_append]
              omega
            omega
          rw [iho k v kvs rest hsk hsv hskvs hlen₂]
          simp [objFromPairs_distinct _ hsplit.1]
    ·
      intro x xs rest hsx hsxs hlen
      rw [parseArrItems]
      obtain ⟨c, tl, hceq, hws, _⟩ := dumpChars_head x
      have hshape : (dumpChars x ++ dumpArrTail xs) ++ (']' :: rest)
          = c :: (tl ++ (dumpArrTail xs ++ (']' :: rest))) := by
        simp [hceq, List.append_assoc]
      rw [hshape, skipWs_not_ws _ hws]
      have hback : c :: (tl ++ (dumpArrTail xs ++ (']' :: rest)))
          = dumpChars x ++ (dumpArrTail xs ++ (']' :: rest)) := by
        simp [hceq]
      rw [hback]
      have hnum : numOk (dumpArrTail xs ++ (']' :: rest)) = true := by
        cases xs with
        | nil => rfl
        | cons y ys => rfl
      have hlenx : (dumpChars x).length < fuel := by omega
      rw [ihv x _ hsx hlenx hnum]
      cases xs with
      | nil => rfl
      | cons y ys =>
        obtain ⟨hsy, hsys⟩ := safeJsonList_cons hsxs
        have h₂ : dumpArrTail (y :: ys) ++ (']' :: rest)
            = ',' :: ' ' :: ((dumpChars y ++ dumpArrTail ys) ++ (']' :: rest)) := by
          show (',' :: ' ' :: dumpChars y ++ dumpArrTail ys) ++ (']' :: rest) = _
          simp [List.append_assoc]
        rw [h₂]
        change (parseArrItems fuel
            (' ' :: ((dumpChars y ++ dumpArrTail ys) ++ (']' :: rest)))).map
            (fun p => (x :: p.1, p.2)) = some (x :: y :: ys, rest)
        rw [parseArrItems_ws]
        have hlen₂ : (dumpChars y).length + (dumpArrTail ys).length + 1 < fuel := by
          have hx : 1 ≤ (dumpChars x).length := by
            obtain ⟨c', tl', hceq', _, _⟩ := dumpChars_head x
            rw [hceq']
            simp
          have : (dumpArrTail (y :: ys)).length
              = 2 + (dumpChars y).length + (dumpArrTail ys).length := by
            show (',' :: ' ' :: dumpChars y ++ dumpArrTail ys).length = _
            simp [List.length_append]
            omega
          omega
        rw [iha y ys rest hsy hsys hlen₂]
        rfl
    ·
      intro k v kvs rest hsk hsv hskvs hlen
      rw [parseObjItems]
      have hshape : (escStrChars k ++ ':' :: ' ' :: dumpChars v ++ dumpObjTail kvs) ++ ('}' :: rest)
          = '"' :: (k.data.flatMap escChar
              ++ ('"' :: (':' :: ' ' :: (dumpChars v ++ (dumpObjTail kvs ++ ('}' :: rest)))))) := by
        show ('"' :: (k.data.flatMap escChar) ++ ['"'] ++ ':' :: ' ' :: dumpChars v
            ++ dumpObjTail kvs) ++ ('}' :: rest) = _
        simp [List.append_assoc]
      rw [hshape, skipWs_not_ws _ (by decide : isJsonWs '"' = false)]
      change (match parseStringBody (k.data.flatMap escChar
          ++ ('"' :: (':' :: ' ' :: (dumpChars v ++ (dumpObjTail kvs ++ ('}' :: rest)))))) with
        | none => none
        | some (kcs, rest₁) =>
          match skipWs rest₁ with
          | ':' :: rest₂ =>
            match parseValueCore fuel (skipWs rest₂) with
            | none => none
            | some (v₂, rest₃) =>
              match skipWs rest₃ with
              | ',' :: rest₄ => (parseObjItems fuel rest₄).map fun p => ((kcs.asString, v₂) :: p.1, p.2)
              | '}' :: rest₄ => some ([(kcs.asString, v₂)], rest₄)
              | _ => none
          | _ => none) = some ((k, v) :: kvs, rest)
      rw [parseStringBody_print k.data _ hsk]
      change (match parseValueCore fuel
          (skipWs (' ' :: (dumpChars v ++ (dumpObjTail kvs ++ ('}' :: rest))))) with
        | none => none
        | some (v₂, rest₃) =>
          match skipWs rest₃ with
          | ',' :: rest₄ =>
            (parseObjItems fuel rest₄).map fun p => ((k.data.asString, v₂) :: p.1, p.2)
          | '}' :: rest₄ => some ([(k.data.asString, v₂)], rest₄)
          | _ => none) = some ((k, v) :: kvs, rest)
      rw [skipWs_space]
      obtain ⟨c, tl, hceq, hws, _⟩ := dumpChars_head v
      have hshape₂ : dumpChars v ++ (dumpObjTail kvs ++ ('}' :: rest))
          = c :: (tl ++ (dumpObjTail kvs ++ ('}' :: rest))) := by
        simp [hceq, List.append_assoc]
      rw [hshape₂, skipWs_not_ws _ hws]
      have hback : c :: (tl ++ (dumpObjTail kvs ++ ('}' :: rest)))
          = dumpChars v ++ (dumpObjTail kvs ++ ('}' :: rest)) := by
        simp [hceq]
      rw [hback]
      have hnum : numOk (dumpObjTail kvs ++ ('}' :: rest)) = true := by
        cases kvs with
        | nil => rfl
        | cons kv₂ kvs₂ =>
          obtain ⟨k₂, v₂⟩ := kv₂
          rfl
      have hlenv : (dumpChars v).length < fuel := by omega
      rw [ihv v _ hsv hlenv hnum]
      cases kvs with
      | nil => rfl
      | cons kv₂ kvs₂ =>
        obtain ⟨k₂, v₂⟩ := kv₂
        obtain ⟨hsk₂, hsv₂, hskvs₂⟩ := safeJsonObj_cons hskvs
        have h₃ : dumpObjTail ((k₂, v₂) :: kvs₂) ++ ('}' :: rest)
            = ',' :: ' ' :: ((escStrChars k₂ ++ ':' :: ' ' :: dumpChars v₂ ++ dumpObjTail kvs₂)
                ++ ('}' :: rest)) := by
          show (',' :: ' ' :: (escStrChars k₂ ++ ':' :: ' ' :: dumpChars v₂) ++ dumpObjTail kvs₂)
              ++ ('}' :: rest) = _
          simp [List.append_assoc]
        rw [h₃]
        change (parseObjItems fuel
            (' ' :: ((escStrChars k₂ ++ ':' :: ' ' :: dumpChars v₂ ++ dumpObjTail kvs₂)
              ++ ('}' :: rest)))).map
            (fun p => ((k.data.asString, v) :: p.1, p.2)) = some ((k, v) :: (k₂, v₂) :: kvs₂, rest)
        rw [parseObjItems_ws]
        have hlen₂ : (dumpChars v₂).length + (dumpObjTail kvs₂).length + 1 < fuel := by
          have hesc := escStrChars_two_le k₂
          have htl : (dumpObjTail ((k₂, v₂) :: kvs₂)).length
              = 2 + ((escStrChars k₂).length + 2 + (dumpChars v₂).length)
                + (dumpObjTail kvs₂).length := by
            show (',' :: ' ' :: (escStrChars k₂ ++ ':' :: ' ' :: dumpChars v₂)
                ++ dumpObjTail kvs₂).length = _
            simp [List.length_append]
            omega
          omega
        rw [iho k₂ v₂ kvs₂ rest hsk₂ hsv₂ hskvs₂ hlen₂]
        rfl

theorem pyLoads_pyDumps (v : JsonValue) (hsafe : safeJson v = true) :
    pyLoads (pyDumps v) = some v := by
  unfold pyLoads pyDumps
  rw [show ((dumpChars v).asString).length = (dumpChars v).length from rfl]
  rw [show ((dumpChars v).asString).data = dumpChars v from rfl]
  unfold parseValue
  obtain ⟨c, tl, hceq, hws, _⟩ := dumpChars_head v
  rw [hceq, skipWs_not_ws _ hws, ← hceq]
  have hmain := (parse_dump_roundtrip ((dumpChars v).length + 2)).1 v [] hsafe (by omega) rfl
  rw [List.append_nil] at hmain
  rw [hmain]
  rfl

theorem intDecChars_all_safe (i : Int) : (intDecChars i).all safeChar = true := by
  have hnat : ∀ n : Nat, (natDecChars n).all safeChar = true := by
    intro n
    rw [List.all_eq_true]
    intro c hc
    obtain ⟨d, hd, hcd⟩ := natDecCharsCore_mem (n + 1) n c (by omega) hc
    rw [hcd]
    exact digitChar_safe d hd
  unfold intDecChars
  by_cases hneg : i < 0
  · rw [if_pos hneg]
    simp only [List.all_cons, Bool.and_eq_true]
    exact ⟨by decide, hnat i.natAbs⟩
  · rw [if_neg hneg]
    exact hnat i.natAbs

theorem dumpArrTail_int_safe (l : List Int) :
    (dumpArrTail (l.map JsonValue.int)).all safeChar = true := by
  induction l with
  | nil => rfl
  | cons i is ih =>
    show (',' :: ' ' :: dumpChars (.int i) ++ dumpArrTail (is.map JsonValue.int)).all
        safeChar = true
    rw [show dumpChars (.int i) = intDecChars i from rfl]
    simp only [List.all_cons, List.all_append, intDecChars_all_safe i, ih]
    decide

theorem safeStr_dump_int_arr (l : List Int) :
    safeStr (pyDumps (.arr (l.map JsonValue.int))) = true := by
  unfold safeStr pyDumps
  rw [show ((dumpChars (.arr (l.map JsonValue.int))).asString).data
      = dumpChars (.arr (l.map JsonValue.int)) from rfl]
  cases l with
  | nil => rfl
  | cons i is =>
    show ('[' :: ((dumpChars (.int i) ++ dumpArrTail (is.map JsonValue.int)) ++ [']'])).all
        safeChar = true
    rw [show dumpChars (.int i) = intDecChars i from rfl]
    simp only [List.all_cons, List.all_append, intDecChars_all_safe i,
      dumpArrTail_int_safe is]
    decide

theorem safeJson_int_arr (l : List Int) : safeJson (.arr (l.map JsonValue.int)) = true := by
  show safeJsonList (l.map JsonValue.int) = true
  induction l with
  | nil => rfl
  | cons i is ih =>
    show (safeJson (.int i) && safeJsonList (is.map JsonValue.int)) = true
    rw [ih]
    rfl

/-- Claim C6 (amended): for every handler name and state drawn from the
self-serializing JSON fragment, with the state not comparing equal to
`None`, the round trip holds: `update_conversation` on a fresh store,
reading `conversations_json`, constructing a new store from that string
and calling `get_conversations` recovers exactly the integer-tuple key
mapped to the state. -/
theorem C6_amended_conversation_roundtrip (name : String) (key : List Int) (st : JsonValue)
    (hname : safeStr name = true) (hst : safeJson st = true)
    (hnn : pyEq JsonValue.null st = false) :
    ∃ (js : String) (s₂ : DictPersistence),
      (freshStore.update_conversation name (key.map JsonValue.int) st).conversations_json
        = .ok js ∧
      DictPersistence.make "" "" "" js "" = .ok s₂ ∧
      (s₂.get_conversations name).1 = [(key.map JsonValue.int, st)] := by
  have hcur : freshStore.convCurState name (key.map JsonValue.int) = .null := by
    unfold DictPersistence.convCurState DictPersistence.convAfterSetdefault freshStore
    simp [lookupStr, lookupConvKey]
  have hupd : freshStore.update_conversation name (key.map JsonValue.int) st
      = { freshStore with
          _conversations := some [(name, [(key.map JsonValue.int, st)])]
          _conversations_json := none } := by
    unfold DictPersistence.update_conversation
    rw [hcur, hnn]
    simp only [Bool.false_eq_true, if_false]
    unfold DictPersistence.convAfterSetdefault freshStore
    simp [lookupStr, upsertStr, upsertConvKey]
  refine ⟨encodeConversationsToJson [(name, [(key.map JsonValue.int, st)])],
    { freshStore with
      _conversations := some [(name, [(key.map JsonValue.int, st)])]
      _conversations_json :=
        some (encodeConversationsToJson [(name, [(key.map JsonValue.int, st)])]) },
    ?_, ?_, ?_⟩
  · rw [hupd]
    unfold DictPersistence.conversations_json
    rfl
  · have hksafe : safeStr (pyDumps (.arr (key.map JsonValue.int))) = true :=
      safeStr_dump_int_arr key
    have houter : safeJson
        (.obj [(name, .obj [(pyDumps (.arr (key.map JsonValue.int)), st)])]) = true := by
      simp [safeJson, safeJsonObj, safeJsonList, distinctKeys, hname, hst, hksafe]
    have hloads_outer :
        pyLoads (encodeConversationsToJson [(name, [(key.map JsonValue.int, st)])])
          = some (.obj [(name, .obj [(pyDumps (.arr (key.map JsonValue.int)), st)])]) := by
      rw [show encodeConversationsToJson [(name, [(key.map JsonValue.int, st)])]
          = pyDumps (.obj [(name, .obj [(pyDumps (.arr (key.map JsonValue.int)), st)])])
          from rfl]
      exact pyLoads_pyDumps _ houter
    have hloads_key : pyLoads (pyDumps (.arr (key.map JsonValue.int)))
        = some (.arr (key.map JsonValue.int)) := pyLoads_pyDumps _ (safeJson_int_arr key)
    have hinner : decodeConvInner [(pyDumps (.arr (key.map JsonValue.int)), st)] []
        = .ok [(key.map JsonValue.int, st)] := by
      change (match pyLoads (pyDumps (.arr (key.map JsonValue.int))) with
        | some (.arr l) => decodeConvInner [] (upsertConvKey [] l st)
        | some _ => Except.error "TypeError: object is not iterable"
        | none => Except.error "ValueError: Unable to deserialize key")
          = Except.ok [(key.map JsonValue.int, st)]
      rw [hloads_key]
      rfl
    have hdec : decodeConversationsFromJson
          (encodeConversationsToJson [(name, [(key.map JsonValue.int, st)])])
        = .ok [(name, [(key.map JsonValue.int, st)])] := by
      unfold decodeConversationsFromJson
      rw [hloads_outer]
      change (match decodeConvInner [(pyDumps (.arr (key.map JsonValue.int)), st)] [] with
        | .ok inner => decodeConvOuter [] (upsertStr [] name inner)
        | .error e => Except.error e)
          = Except.ok [(name, [(key.map JsonValue.int, st)])]
      rw [hinner]
      rfl
    have hjsne : encodeConversationsToJson [(name, [(key.map JsonValue.int, st)])] ≠ "" := by
      rw [show encodeConversationsToJson [(name, [(key.map JsonValue.int, st)])]
          = pyDumps (.obj [(name, .obj [(pyDumps (.arr (key.map JsonValue.int)), st)])])
          from rfl]
      exact asString_cons_ne_empty _ _
    have hjsempty :
        (encodeConversationsToJson [(name, [(key.map JsonValue.int, st)])]).isEmpty = false := by
      rw [Bool.eq_false_iff]
      intro h
      exact hjsne ((String.isEmpty_iff _).mp h)
    have hmk : DictPersistence.make ""  ""  ""
          (encodeConversationsToJson [(name, [(key.map JsonValue.int, st)])]) ""
        = if (encodeConversationsToJson [(name, [(key.map JsonValue.int, st)])]).isEmpty
          then .ok freshStore
          else match decodeConversationsFromJson
              (encodeConversationsToJson [(name, [(key.map JsonValue.int, st)])]) with
            | .ok c => .ok { freshStore with
                _conversations := some c
                _conversations_json :=
                  some (encodeConversationsToJson [(name, [(key.map JsonValue.int, st)])]) }
            | .error _ =>
              .error "Unable to deserialize conversations_json. Not valid JSON" := rfl
    rw [hmk, hjsempty, hdec]
    rfl
  · unfold DictPersistence.get_conversations
    simp [lookupStr]

/-- Counterexample to claim C6: the round trip fails for the
JSON-serializable state `None`. `update_conversation('h', (1, 2), None)`
on a fresh store compares the new state equal to the current lookup and
returns after the `setdefault`, so the entry is never written; the
serialized snapshot is `{"h": {}}` and the reconstructed store yields an
empty dict for `'h'`, not `{(1, 2): None}`. -/
theorem C6_counterexample :
    convNullRT = freshStore.update_conversation "h" [.int 1, .int 2] .null ∧
    convNullRT.conversations_json = .ok "\x7b\"h\": \x7b\x7d\x7d" ∧
    ∃ s₂ : DictPersistence,
      DictPersistence.make "" "" "" "\x7b\"h\": \x7b\x7d\x7d" "" = .ok s₂ ∧
      (s₂.get_conversations "h").1 = [] ∧
      ([] : List (ConvKey × JsonValue))
        ≠ [([JsonValue.int 1, JsonValue.int 2], JsonValue.null)] := by
  refine ⟨rfl, rfl, ⟨{ freshStore with
      _conversations := some [("h", [])]
      _conversations_json := some "\x7b\"h\": \x7b\x7d\x7d" }, rfl, rfl,
    fun h => List.noConfusion h⟩⟩

/-- Witness for claim C6 (amended): the round trip at name `'h'`, key
`(1, 2)` and state `'STATE'`. -/
theorem C6_amended_conversation_roundtrip_witness :
    safeStr "h" = true ∧ safeJson (.str "STATE") = true ∧
    pyEq JsonValue.null (.str "STATE") = false ∧
    ∃ (js : String) (s₂ : DictPersistence),
      (freshStore.update_conversation "h"
          (([1, 2] : List Int).map JsonValue.int) (.str "STATE")).conversations_json
        = .ok js ∧
      DictPersistence.make "" "" "" js "" = .ok s₂ ∧
      (s₂.get_conversations "h").1
        = [(([1, 2] : List Int).map JsonValue.int, .str "STATE")] :=
  ⟨by decide, by decide, rfl,
    C6_amended_conversation_roundtrip "h" [1, 2] (.str "STATE") (by decide) (by decide) rfl⟩
